import Mathlib

/-!
# Verification of the Rook excerpt: OSD pipeline synthesis and RBD-mirror reconciliation

Shallow embedding of the two source files

* `pkg/operator/ceph/cluster/osd/spec.go` — container pipeline synthesis for
  OSD daemons (init containers, bridge mounts, embedded shell scripts), and
* `pkg/operator/ceph/cluster/rbd/mirror.go` — the RBD-mirror deployment
  reconciler (create / update / delete-and-recreate, singleton cleanup).

Modelling conventions:

* Kubernetes objects are projected onto the fields the verified properties
  depend on (names, commands, args, volume mounts and devices, host namespace
  flags, init/main container lists).  Images, resource quantities, security
  contexts, env vars, probes, labels and placement of the OSD deployment are
  not modelled — no claim mentions them.
* The embedded shell scripts are modelled twice: syntactically (a
  `ShellScript` value records which template `fmt.Sprintf` instantiated and
  with which arguments) and semantically (a transition function on a small
  state, one per script, transcribing the script's control flow).
* Helpers that the excerpt calls but whose bodies live outside the two files
  (bridge-mount construction, device-mapper names, the chown init container,
  ordinal naming, the memory pre-check) are modelled from the spec; each such
  definition carries a doc comment starting `Modelled from the spec:`.
* Kubernetes API calls of the mirror reconciler are modelled as state
  transitions on a `MirrorClusterState` with explicit fault injection
  (`MirrorEnv`), and the reconciler additionally emits a trace of the API
  operations it attempted.
-/

/-! ## Shell script semantics: `blockDevMapper` (device-to-bridge copy) -/

/-- A file that can sit at the copy destination: a block special file with
major/minor numbers, or an ordinary file.  `content` abstracts the bytes. -/
inductive DevFile
  | block (major minor : Nat) (content : Nat)
  | regular (content : Nat)
deriving DecidableEq, Repr

/-- State seen by one run of the `blockDevMapper` script: the source block
device (`PVC_SOURCE`, always a block special file) and whatever currently
sits at `PVC_DEST`. -/
structure BlockCopyState where
  sourceMajor : Nat
  sourceMinor : Nat
  sourceContent : Nat
  dest : Option DevFile
deriving DecidableEq, Repr

/-- The copy flag the script adds to `CP_ARGS`. -/
inductive CpMode
  | noClobber
  | removeDestination
  | plain
deriving DecidableEq, Repr

/-- `stat --format '%t%T' f`: major then minor device number, each printed in
lowercase hex, concatenated with no separator. -/
def statMajMin (major minor : Nat) : String :=
  String.mk (Nat.toDigits 16 major) ++ String.mk (Nat.toDigits 16 minor)

/-- The mode the `blockDevMapper` script selects: if `[ -b "$PVC_DEST" ]`, it
compares `stat '%t%T'` of source and destination and picks `--no-clobber` on
equality, `--remove-destination` otherwise; if the destination is not a block
special file it runs a plain `cp`. -/
def blockDevMapperMode (st : BlockCopyState) : CpMode :=
  match st.dest with
  | some (.block dmaj dmin _) =>
    if statMajMin st.sourceMajor st.sourceMinor = statMajMin dmaj dmin then
      .noClobber
    else
      .removeDestination
  | _ => .plain

/-- Effect of `cp "${CP_ARGS[@]}" "$PVC_SOURCE" "$PVC_DEST"` for each mode.
`--no-clobber` leaves an existing destination untouched; `--remove-destination`
unlinks the destination and recreates it from the source; a plain copy of a
block special file succeeds when the destination is absent and fails when a
file is already in the way. -/
def cpRun (mode : CpMode) (st : BlockCopyState) : Except Unit BlockCopyState :=
  let copied : DevFile := .block st.sourceMajor st.sourceMinor st.sourceContent
  match mode, st.dest with
  | .noClobber, some _ => .ok st
  | .noClobber, none => .ok { st with dest := some copied }
  | .removeDestination, _ => .ok { st with dest := some copied }
  | .plain, none => .ok { st with dest := some copied }
  | .plain, some _ => .error ()

/-- One run of the `blockDevMapper` script: select the copy mode, then copy. -/
def blockDevMapperRun (st : BlockCopyState) : CpMode × Except Unit BlockCopyState :=
  (blockDevMapperMode st, cpRun (blockDevMapperMode st) st)

/-! ## Shell script semantics: `getKEKFromVaultWithToken` (key retrieval) -/

/-- Outcome of the `curl` call against Vault, as observed by the script's
subsequent `python3` probes of the payload file. -/
structure VaultResponse where
  curlOk : Bool
  hasWarnings : Bool
  hasErrors : Bool
  hasKey : Bool
  keyValue : Nat
deriving DecidableEq, Repr

/-- Result of one run of the `getKEKFromVaultWithToken` script, starting from a
given key-file state (`none` = no file at `KEY_PATH`).  Returns
`(success, key file after, payload temp file left behind)`.

Transcribed control flow (the script runs under `set -e`):
1. `mktemp` creates the payload file;
2. `curl … > "$CURL_PAYLOAD"` — failure aborts the script;
3. if the payload carries `warnings` and the key field is absent, `exit 1`;
4. if the payload carries `errors`, `exit 1`;
5. `python3 … > "$KEY_PATH"` — the redirection creates/truncates `KEY_PATH`
   before python runs, so a payload that passed the two checks but lacks the
   key field leaves an empty key file and aborts;
6. `rm -f "$CURL_PAYLOAD"` — reached only on success. -/
def getKEKRun (resp : VaultResponse) (keyFile : Option Nat) :
    Bool × Option Nat × Bool :=
  if ¬ resp.curlOk then
    (false, keyFile, true)
  else if resp.hasWarnings ∧ ¬ resp.hasKey then
    (false, keyFile, true)
  else if resp.hasErrors then
    (false, keyFile, true)
  else if resp.hasKey then
    (true, some resp.keyValue, false)
  else
    (false, some 0, true)

/-! ## Shell script semantics: `openEncryptedBlock` (encrypted-device open) -/

/-- State seen by the `openEncryptedBlock` script: whether a key file is at
`KEY_FILE_PATH` (and its content), whether a block device already exists at
`DM_PATH`, and whether the block device backing that mapping is still present
under `/sys/dev/block` (the `dmsetup table` major:minor probe).  The crypt
table of a mapping references a single backing device. -/
structure OpenBlockState where
  keyFile : Option Nat
  dmOpen : Bool
  underlyingPresent : Bool
deriving DecidableEq, Repr

/-- Whether `cryptsetup luksOpen` itself would succeed, given that a key file
is present (wrong key, busy device, …). -/
structure OpenBlockEnv where
  luksOpenOk : Bool
deriving DecidableEq, Repr

/-- The `open_encrypted_block` shell function: `cryptsetup luksOpen --key-file
"$KEY_FILE_PATH" …` followed by `rm -f "$KEY_FILE_PATH"`.  Under `set -e` a
failing `luksOpen` aborts before the `rm`, so the key file survives failure.
Returns `(success, state after)`. -/
def openEncBlockCall (env : OpenBlockEnv) (st : OpenBlockState) :
    Bool × OpenBlockState :=
  if st.keyFile.isSome ∧ env.luksOpenOk then
    (true, { st with keyFile := none, dmOpen := true, underlyingPresent := true })
  else
    (false, { st with dmOpen := false })

/-- One run of the `openEncryptedBlock` script:
if `[ -b "$DM_PATH" ]` the script walks the `dmsetup table` output; when the
backing device of the mapping has disappeared from `/sys/dev/block` it runs
`dmsetup remove --force "$DM_NAME"` and calls `open_encrypted_block` again;
when the backing device is still present it leaves the mapping alone and
succeeds.  If `DM_PATH` is not a block device it calls `open_encrypted_block`.
Returns `(success, state after)`. -/
def openEncryptedBlockRun (env : OpenBlockEnv) (st : OpenBlockState) :
    Bool × OpenBlockState :=
  if st.dmOpen then
    if ¬ st.underlyingPresent then
      openEncBlockCall env { st with dmOpen := false }
    else
      (true, st)
  else
    openEncBlockCall env st

/-! ## RBD-mirror reconciler (`mirror.go`) -/

/-- `AppName` from `mirror.go`: the ceph rbd mirror application name. -/
def rbdMirrorAppName : String := "rook-ceph-rbd-mirror"

/-- `cephRbdMirrorPodMinimumMemory`: minimum amount of memory in MB to run the
pod. -/
def cephRbdMirrorPodMinimumMemory : Nat := 512

/-- Modelled from the spec: `k8sutil.IndexToName` turns a stable ordinal
identity into a daemon name (`0 ↦ "a"`, `1 ↦ "b"`, …, `26 ↦ "aa"`, …), the
"stable resource name" of §3.  Fuel-based transcription of the base-26 loop. -/
def indexToNameAux : Nat → Nat → String
  | 0, _ => ""
  | fuel + 1, i =>
    let c := String.singleton (Char.ofNat ('a'.toNat + i % 26))
    if i < 26 then c else indexToNameAux fuel (i / 26 - 1) ++ c

/-- Modelled from the spec: ordinal identity to daemon name. -/
def indexToName (i : Nat) : String := indexToNameAux (i + 1) i

/-- Modelled from the spec: `k8sutil.NameToIndex`, the partial inverse of
`indexToName`; `none` when the name is not made of lowercase letters. -/
def nameToIndex (s : String) : Option Nat :=
  if s.data ≠ [] ∧ s.data.all (fun c => 'a' ≤ c ∧ c ≤ 'z') then
    some (s.data.foldl (fun acc c => acc * 26 + (c.toNat - 'a'.toNat + 1)) 0 - 1)
  else
    none

/-- Modelled from the spec: `fullDaemonName` prefixes the cephx user of an
rbd-mirror daemon ("remove its associated credential", §4.5). -/
def fullDaemonName (daemonName : String) : String :=
  "client.rbd-mirror." ++ daemonName

/-- A live `apps/v1` Deployment as the mirror reconciler sees it: its name,
its labels, and an abstract content identifier standing for the pod template
(`specId` differing means an update is needed). -/
structure MirrorDeployment where
  name : String
  labels : List (String × String)
  specId : Nat
deriving DecidableEq, Repr

/-- Look a key up in a label list (first match wins, as in a Go map that we
keep associative). -/
def lookupLabel (labels : List (String × String)) (key : String) : Option String :=
  (labels.find? (fun kv => kv.1 = key)).map (·.2)

/-- Whether a deployment carries the rbd-mirror class label
`app=rook-ceph-rbd-mirror` (the reconciler's list selector). -/
def hasMirrorAppLabel (d : MirrorDeployment) : Bool :=
  lookupLabel d.labels "app" = some rbdMirrorAppName

/-- Live cluster state touched by the mirror reconciler: the deployments of
the namespace, the cephx credentials, and the generated keyring secrets. -/
structure MirrorClusterState where
  deployments : List MirrorDeployment
  cephxKeys : List String
  keyrings : List String
deriving DecidableEq, Repr

/-- Kubernetes API operations the reconciler attempts, for trace-level
properties (exactly one delete, no mutation before a failed pre-check, …). -/
inductive ApiOp
  | createDep (name : String)
  | updateDep (name : String)
  | deleteDep (name : String)
  | listDeps
  | authDel (daemon : String)
  | keyringGen (daemon : String)
deriving DecidableEq, Repr

/-- Kubernetes API error classes the reconciler distinguishes
(`kerrors.IsAlreadyExists` vs anything else). -/
inductive K8sErr
  | alreadyExists
  | notFound
  | internal
deriving DecidableEq, Repr

/-- Fault injection for the external collaborators of `start` /
`removeExtraMirrors`: each flag decides whether the corresponding external
call succeeds on this reconcile pass. -/
structure MirrorEnv where
  ownerRefOk : Bool := true
  keyringOk : Bool := true
  setRefOk : Bool := true
  annotateOk : Bool := true
  updateOk : Bool := true
  createFault1 : Bool := false
  createFault2 : Bool := false
  listFault : Bool := false
  deleteDeploymentFault : String → Bool := fun _ => false
  authDeleteFault : String → Bool := fun _ => false

/-- The CephRBDMirror custom resource, projected onto what `start` reads: its
object name, the specified pod memory (MB, `none` when unspecified), the
worker count and an abstract identifier of the desired pod template. -/
structure CephRBDMirror where
  name : String
  memoryLimitMB : Option Nat
  count : Nat
  specId : Nat
deriving DecidableEq, Repr

/-- Modelled from the spec: `controller.CheckPodMemory` validates the pod's
memory if specified against the 512 MB minimum; unspecified resources pass. -/
def checkPodMemoryOk (memoryLimitMB : Option Nat) (minimumMB : Nat) : Bool :=
  match memoryLimitMB with
  | none => true
  | some m => decide (minimumMB ≤ m)

/-- Modelled from the spec: the desired rbd-mirror deployment produced by the
plan builder — named after the canonical resource, carrying the class label
and the identity label, with the CR's pod template. -/
def rbdMirrorDesiredDeployment (cr : CephRBDMirror) (resourceName daemonID : String) :
    MirrorDeployment :=
  { name := resourceName
    labels := [("app", rbdMirrorAppName), ("rbd-mirror", daemonID)]
    specId := cr.specId }

/-- `Clientset…Create`: `alreadyExists` when a deployment of that name is
live, an injected `internal` fault otherwise, else append. -/
def createDeployment (fault : Bool) (st : MirrorClusterState) (d : MirrorDeployment) :
    Except K8sErr MirrorClusterState :=
  if st.deployments.any (fun e => e.name = d.name) then
    .error .alreadyExists
  else if fault then
    .error .internal
  else
    .ok { st with deployments := st.deployments ++ [d] }

/-- `Clientset…Delete` by name: injected fault, `notFound` when no deployment
carries the name, else remove it. -/
def deleteDeployment (fault : Bool) (st : MirrorClusterState) (name : String) :
    Except K8sErr MirrorClusterState :=
  if fault then
    .error .internal
  else if st.deployments.any (fun e => e.name = name) then
    .ok { st with deployments := st.deployments.filter (fun e => e.name ≠ name) }
  else
    .error .notFound

/-- `mon.UpdateCephDeploymentAndWait` (via `updateDeploymentAndWait`): on
success the live deployment of that name is replaced by the desired one. -/
def updateDeploymentAndWait (ok : Bool) (st : MirrorClusterState) (d : MirrorDeployment) :
    Except K8sErr MirrorClusterState :=
  if ok then
    .ok { st with
          deployments := st.deployments.map (fun e => if e.name = d.name then d else e) }
  else
    .error .internal

/-- One iteration of the `removeExtraMirrors` loop body for a listed
deployment `deploy`: skip it when the `rbd-mirror` label is missing or
unparsable or names the canonical identity 0; otherwise delete the deployment
(failure only logged) and then delete its cephx credential (failure returned,
aborting the loop).  Loop over the listed snapshot. -/
def removeExtraLoop (env : MirrorEnv) :
    List MirrorDeployment → MirrorClusterState → List ApiOp →
    Except String Unit × MirrorClusterState × List ApiOp
  | [], st, tr => (.ok (), st, tr)
  | deploy :: rest, st, tr =>
    match lookupLabel deploy.labels "rbd-mirror" with
    | none => removeExtraLoop env rest st tr
    | some daemonName =>
      match nameToIndex daemonName with
      | none => removeExtraLoop env rest st tr
      | some 0 => removeExtraLoop env rest st tr
      | some (_ + 1) =>
        let st1 :=
          match deleteDeployment (env.deleteDeploymentFault deploy.name) st deploy.name with
          | .error _ => st
          | .ok st' => st'
        let tr1 := tr ++ [.deleteDep deploy.name]
        let cephxUser := fullDaemonName daemonName
        if env.authDeleteFault cephxUser then
          (.error "failed to delete cephx key", st1, tr1 ++ [.authDel cephxUser])
        else
          removeExtraLoop env rest
            { st1 with cephxKeys := st1.cephxKeys.filter (fun k => k ≠ cephxUser) }
            (tr1 ++ [.authDel cephxUser])

/-- `removeExtraMirrors`: list the deployments carrying the class label
`app=rook-ceph-rbd-mirror`; when more than one is live, walk the listed
snapshot removing every non-canonical instance and its credential. -/
def removeExtraMirrors (env : MirrorEnv) (st : MirrorClusterState) :
    Except String Unit × MirrorClusterState × List ApiOp :=
  if env.listFault then
    (.error "failed to get mirrors", st, [.listDeps])
  else
    let items := st.deployments.filter hasMirrorAppLabel
    if items.length > 1 then
      removeExtraLoop env items st [.listDeps]
    else
      (.ok (), st, [.listDeps])

/-- `(*ReconcileCephRBDMirror).start`, transcribed:
1. `CheckPodMemory` against the 512 MB minimum — error before anything else;
2. controller owner reference — error aborts;
3. `generateKeyring` for the canonical daemon (`IndexToName(0)`);
4. `makeDeployment`, `SetControllerReference`, `SetLastAppliedAnnotation`;
5. `Create`; on `IsAlreadyExists`, `updateDeploymentAndWait`; if that fails,
   delete the deployment named `cephRBDMirror.Name` and re-`Create` the
   desired one, surfacing either failure;
6. `removeExtraMirrors`, whose error is only logged.
Returns `(result, state after, API trace)`. -/
def startRBDMirror (env : MirrorEnv) (cr : CephRBDMirror) (st : MirrorClusterState) :
    Except String Unit × MirrorClusterState × List ApiOp :=
  if ¬ checkPodMemoryOk cr.memoryLimitMB cephRbdMirrorPodMinimumMemory then
    (.error "error checking pod memory", st, [])
  else if ¬ env.ownerRefOk then
    (.error "failed to get controller owner reference", st, [])
  else
    let daemonID := indexToName 0
    let resourceName := rbdMirrorAppName ++ "-" ++ daemonID
    if ¬ env.keyringOk then
      (.error "failed to generate keyring", st, [.keyringGen daemonID])
    else
      let st1 := { st with keyrings := st.keyrings ++ [resourceName] }
      let tr1 : List ApiOp := [.keyringGen daemonID]
      let d := rbdMirrorDesiredDeployment cr resourceName daemonID
      if ¬ env.setRefOk then
        (.error "failed to set owner reference", st1, tr1)
      else if ¬ env.annotateOk then
        (.error "failed to set annotation", st1, tr1)
      else
        let cleanup := fun (st2 : MirrorClusterState) (tr2 : List ApiOp) =>
          let (_, st3, tr3) := removeExtraMirrors env st2
          ((.ok () : Except String Unit), st3, tr2 ++ tr3)
        match createDeployment env.createFault1 st1 d with
        | .ok st2 => cleanup st2 (tr1 ++ [.createDep d.name])
        | .error .alreadyExists =>
          let tr2 := tr1 ++ [.createDep d.name]
          (match updateDeploymentAndWait env.updateOk st1 d with
           | .ok st2 => cleanup st2 (tr2 ++ [.updateDep d.name])
           | .error _ =>
             let tr3 := tr2 ++ [.updateDep d.name]
             match deleteDeployment (env.deleteDeploymentFault cr.name) st1 cr.name with
             | .error _ =>
               (.error "failed to delete rbd-mirror during del-and-recreate", st1,
                tr3 ++ [.deleteDep cr.name])
             | .ok st2 =>
               match createDeployment env.createFault2 st2 d with
               | .error _ =>
                 (.error "failed to recreate rbd-mirror deployment", st2,
                  tr3 ++ [.deleteDep cr.name, .createDep d.name])
               | .ok st3 => cleanup st3 (tr3 ++ [.deleteDep cr.name, .createDep d.name]))
        | .error _ =>
          (.error "failed to create deployment", st1, tr1 ++ [.createDep d.name])

/-! ## OSD pipeline synthesis (`spec.go`): data model -/

/-- Name constants of `spec.go`. -/
def rookBinariesMountPath : String := "/rook"

def rookBinariesVolumeName : String := "rook-binaries"

def activateOSDVolumeName : String := "activate-osd"

def activateOSDMountPath : String := "/var/lib/ceph/osd/ceph-"

def blockPVCMapperInitContainer : String := "blkdevmapper"

def blockEncryptionKMSGetKEKInitContainer : String := "encryption-kms-get-kek"

def blockEncryptionOpenInitContainer : String := "encryption-open"

def blockEncryptionOpenMetadataInitContainer : String := "encryption-open-metadata"

def blockEncryptionOpenWalInitContainer : String := "encryption-open-wal"

def blockPVCMapperEncryptionInitContainer : String := "blkdevmapper-encryption"

def blockPVCMapperEncryptionMetadataInitContainer : String := "blkdevmapper-metadata-encryption"

def blockPVCMapperEncryptionWalInitContainer : String := "blkdevmapper-wal-encryption"

def blockPVCMetadataMapperInitContainer : String := "blkdevmapper-metadata"

def blockPVCWalMapperInitContainer : String := "blkdevmapper-wal"

def activatePVCOSDInitContainer : String := "activate"

def expandPVCOSDInitContainer : String := "expand-bluefs"

def expandEncryptedPVCOSDInitContainer : String := "expand-encrypted-bluefs"

def encryptedPVCStatusOSDInitContainer : String := "encrypted-block-status"

def encryptionKeyFileName : String := "luks_key"

def dmcryptBlockType : String := "block-dmcrypt"

def dmcryptMetadataType : String := "db-dmcrypt"

def dmcryptWalType : String := "wal-dmcrypt"

def bluestoreBlockName : String := "block"

def bluestoreMetadataName : String := "block.db"

def bluestoreWalName : String := "block.wal"

/-- A Kubernetes volume(-mount) name, kept structured so that the naming
scheme of the volume-binding resolver is visible: bridges render as
`<claim>-bridge` (source: the `fmt.Sprintf("%s-bridge", …)` pattern), PVC
block volumes render as the claim name itself. -/
inductive VolName
  | fixed (n : String)
  | claimVol (claim : String)
  | bridge (claim : String)
  | encryptionKey (claim : String)
deriving DecidableEq, Repr

/-- The string each structured volume name renders to in the pod spec. -/
def VolName.render : VolName → String
  | .fixed n => n
  | .claimVol claim => claim
  | .bridge claim => claim ++ "-bridge"
  | .encryptionKey claim => claim ++ "-encryption-key"

structure VolumeMount where
  name : VolName
  mountPath : String
  readOnly : Bool := false
deriving DecidableEq, Repr

structure VolumeDevice where
  name : VolName
  devicePath : String
deriving DecidableEq, Repr

structure Volume where
  name : VolName
deriving DecidableEq, Repr

/-- Which shell template a `/bin/bash -c fmt.Sprintf(template, …)` command
instantiated, together with the substituted arguments, in template order.  The
templates' semantics are the transition functions of the first section. -/
inductive ShellScript
  | activateOSD (osdID osdUUID osdStoreFlag cvMode device metadataDeviceEnv walDeviceEnv : String)
  | openEncryptedBlock (keyFilePath blockPath dmName dmPath : String)
  | getKEKFromVaultWithToken (kekName keyPath : String)
  | blockDevMapper (pvcSource pvcDest : String)
deriving DecidableEq, Repr

/-- A container command: either a plain argv (possibly empty, meaning the
image entrypoint) or `/bin/bash -c` over an instantiated shell template. -/
inductive ContainerCommand
  | argv (cmd : List String)
  | bashC (script : ShellScript)
deriving DecidableEq, Repr

/-- A container, projected onto the claim-relevant fields. -/
structure Container where
  name : String
  command : ContainerCommand := .argv []
  args : List String := []
  volumeMounts : List VolumeMount := []
  volumeDevices : List VolumeDevice := []
deriving DecidableEq, Repr

/-- `osdProperties`, projected. -/
structure OsdProperties where
  pvcClaimName : String := ""
  metadataPVCClaimName : String := ""
  walPVCClaimName : String := ""
  encrypted : Bool := false
  storeConfigEncryptedDevice : Bool := false
  portable : Bool := false
  tuneSlowDeviceClass : Bool := false
  tuneFastDeviceClass : Bool := false
  crushHostname : String := ""
deriving DecidableEq, Repr

/-- Modelled from the spec: provisioning mode is `PersistentVolume` exactly
when an externally-provisioned claim is attached (`osdProps.onPVC()`). -/
def OsdProperties.onPVC (p : OsdProperties) : Bool := p.pvcClaimName ≠ ""

/-- Modelled from the spec: a separate metadata volume is present exactly when
its claim is (`osdProps.onPVCWithMetadata()`). -/
def OsdProperties.onPVCWithMetadata (p : OsdProperties) : Bool :=
  p.metadataPVCClaimName ≠ ""

/-- Modelled from the spec: a separate WAL volume is present exactly when its
claim is (`osdProps.onPVCWithWal()`). -/
def OsdProperties.onPVCWithWal (p : OsdProperties) : Bool := p.walPVCClaimName ≠ ""

/-- `OSDInfo`, projected. -/
structure OSDInfo where
  id : Nat
  uuid : String := ""
  cvMode : String := ""
  blockPath : String := ""
  location : String := ""
  topologyAffinity : String := ""
  lvBackedPV : Bool := false
deriving DecidableEq, Repr

/-- The cluster context read by `makeDeployment`, with the volume/mount lists
produced by the external `controller` helpers as opaque inputs, and a success
flag for each external call that can fail. -/
structure ClusterEnv where
  namespaceName : String := "rook-ceph"
  fsid : String := ""
  isAtLeastOctopus : Bool := true
  networkIsHost : Bool := false
  networkIsMultus : Bool := false
  multusOk : Bool := true
  ipv6 : Bool := false
  kmsEnabled : Bool := false
  kmsProvider : String := ""
  kmsTokenAuth : Bool := false
  logCollectorEnabled : Bool := false
  setOwnerRefOk : Bool := true
  nodeAffinityOk : Bool := true
  cephVolumeMounts : List VolumeMount := []
  rookVolumeMounts : List VolumeMount := []
  podVolumes : List Volume := []
  pvcOSDVolumes : List Volume := []
  loggingFlags : List String := []
  sdnFlags : List String := []
  configDir : String := "/var/lib/rook"
deriving DecidableEq, Repr

/-- Go `path.Join` restricted to already-clean components, which is how the
excerpt uses it. -/
def pathJoin (a b : String) : String := a ++ "/" ++ b

/-- Modelled from the spec: `BridgeFor(claimIdentity)` for the legacy (lvm)
pipeline — the bridge of a claim, mounted at `/mnt`. -/
def getPvcOSDBridgeMount (claimName : String) : VolumeMount :=
  { name := .bridge claimName, mountPath := "/mnt" }

/-- Modelled from the spec: `BridgeFor(claimIdentity)` for the raw-mode
activate pipeline — the bridge of a claim, mounted at the OSD data dir. -/
def getPvcOSDBridgeMountActivate (mountPath claimName : String) : VolumeMount :=
  { name := .bridge claimName, mountPath := mountPath }

/-- Modelled from the spec: the udev hostpath volume the OSD talks to. -/
def getUdevVolume : Volume × VolumeMount :=
  ({ name := .fixed "run-udev" }, { name := .fixed "run-udev", mountPath := "/run/udev" })

/-- Modelled from the spec: the `/dev/mapper` volume for encrypted devices. -/
def getDeviceMapperVolume : Volume × VolumeMount :=
  ({ name := .fixed "dev-mapper" }, { name := .fixed "dev-mapper", mountPath := "/dev/mapper" })

/-- Modelled from the spec: the `/dev/mapper` mount alone. -/
def getDeviceMapperMount : VolumeMount := getDeviceMapperVolume.2

/-- `opconfig.EtcCephDir`. -/
def etcCephDir : String := "/etc/ceph"

/-- `encryptionKeyPath()`: where the retrieved key is written for cryptsetup
(the private path of the key flow). -/
def encryptionKeyPath : String := pathJoin etcCephDir encryptionKeyFileName

/-- Modelled from the spec: the device-mapper name of an encrypted volume,
`<claim>-<blockType>` (visible in the `cryptsetup resize/status` call sites). -/
def encryptionDMName (pvcName blockType : String) : String :=
  pvcName ++ "-" ++ blockType

/-- Modelled from the spec: the device node of an opened encrypted volume. -/
def encryptionDMPath (pvcName blockType : String) : String :=
  pathJoin "/dev/mapper" (encryptionDMName pvcName blockType)

/-- Modelled from the spec: the pre-open copy destination `<blockName>-tmp`
inside the bridge ("when encrypted we first copy to …/block-tmp", source
comments). -/
def encryptionBlockDestinationCopy (mountPath blockName : String) : String :=
  pathJoin mountPath (blockName ++ "-tmp")

/-- Modelled from the spec: the volume/mount holding the retrieved key, a
private path shared by the key-retrieval and open steps, named after the
primary claim. -/
def getEncryptionVolume (osdProps : OsdProperties) : Volume × VolumeMount :=
  ({ name := .encryptionKey osdProps.pvcClaimName },
   { name := .encryptionKey osdProps.pvcClaimName, mountPath := etcCephDir })

/-- Modelled from the spec: `kms.VaultVolumeAndMount` — the Vault TLS config
volume. -/
def vaultVolumeAndMount : Volume × VolumeMount :=
  ({ name := .fixed "vault-client-tls" },
   { name := .fixed "vault-client-tls", mountPath := "/etc/vault" })

/-- Modelled from the spec: the read-only ceph config override mount
(`k8sutil.ConfigOverrideName`). -/
def configOverrideMount : VolumeMount :=
  { name := .fixed "rook-config-override", mountPath := etcCephDir, readOnly := true }

/-- Modelled from the spec: `kms.GenerateOSDEncryptionSecretName`, the KEK
name derived from the claim identity. -/
def generateOSDEncryptionSecretName (claim : String) : String :=
  "rook-ceph-osd-encryption-key-" ++ claim

def osdMetadataDeviceEnvVarName : String := "ROOK_METADATA_DEVICE"

def osdWalDeviceEnvVarName : String := "ROOK_WAL_DEVICE"

/-- Modelled from the spec: `controller.ConfigInitContainerName`. -/
def configInitContainerName : String := "config-init"

/-- Modelled from the spec: name of the ownership-normalization init
container (`controller.ChownCephDataDirsInitContainer`). -/
def chownContainerName : String := "chown-container-data-dir"

/-- Modelled from the spec: the ownership-normalization init container — a
single recursive chown of the data dir, mounted with the daemon's volume
mounts, always appended last. -/
def chownCephDataDirsInitContainer (containerDataDir : String)
    (mounts : List VolumeMount) : Container :=
  { name := chownContainerName
    command := .argv ["chown", "--verbose", "--recursive", "ceph:ceph"]
    args := if containerDataDir = "" then [] else [containerDataDir]
    volumeMounts := mounts }

/-- Modelled from the spec: the log collector side-car
(`controller.LogCollectorContainer`). -/
def logCollectorContainer (osdID : String) : Container :=
  { name := "log-collector-ceph-osd-" ++ osdID }

/-! ## OSD pipeline synthesis (`spec.go`): container generators -/

/-- `getCopyBinariesContainer`: the emptyDir volume for `tini`/`rook` binaries
and the init container copying them into it. -/
def getCopyBinariesContainer : Volume × Container :=
  ({ name := .fixed rookBinariesVolumeName },
   { name := "copy-bins"
     args := ["copy-binaries", "--copy-to-dir", rookBinariesMountPath]
     volumeMounts := [{ name := .fixed rookBinariesVolumeName, mountPath := rookBinariesMountPath }] })

/-- `getActivateOSDInitContainer`: hostpath volume plus the `activate` init
container running the `activateOSDCode` script. -/
def getActivateOSDInitContainer (osdID : String) (osdInfo : OSDInfo)
    (osdProps : OsdProperties) : Volume × Container :=
  let activateOSDMountPathID := activateOSDMountPath ++ osdID
  let volMounts : List VolumeMount :=
    [{ name := .fixed activateOSDVolumeName, mountPath := activateOSDMountPathID },
     { name := .fixed "devices", mountPath := "/dev" },
     configOverrideMount]
  let volMounts :=
    if osdProps.onPVC then volMounts ++ [getPvcOSDBridgeMount osdProps.pvcClaimName]
    else volMounts
  ({ name := .fixed activateOSDVolumeName },
   { name := "activate"
     command := .bashC (.activateOSD osdID osdInfo.uuid "--bluestore" osdInfo.cvMode
       osdInfo.blockPath osdMetadataDeviceEnvVarName osdWalDeviceEnvVarName)
     volumeMounts := volMounts })

/-- `getPVCInitContainer` (lvm-mode device-to-bridge copy). -/
def getPVCInitContainer (osdProps : OsdProperties) : Container :=
  { name := blockPVCMapperInitContainer
    command := .bashC (.blockDevMapper ("/" ++ osdProps.pvcClaimName)
      ("/mnt/" ++ osdProps.pvcClaimName))
    volumeDevices := [{ name := .claimVol osdProps.pvcClaimName,
                        devicePath := "/" ++ osdProps.pvcClaimName }]
    volumeMounts := [getPvcOSDBridgeMount osdProps.pvcClaimName] }

/-- `getPVCInitContainerActivate` (raw-mode device-to-bridge copy; when
encrypted the destination is the `block-tmp` staging name). -/
def getPVCInitContainerActivate (mountPath : String) (osdProps : OsdProperties) : Container :=
  let cpDestinationName :=
    if osdProps.encrypted then encryptionBlockDestinationCopy mountPath bluestoreBlockName
    else pathJoin mountPath bluestoreBlockName
  { name := blockPVCMapperInitContainer
    command := .bashC (.blockDevMapper ("/" ++ osdProps.pvcClaimName) cpDestinationName)
    volumeDevices := [{ name := .claimVol osdProps.pvcClaimName,
                        devicePath := "/" ++ osdProps.pvcClaimName }]
    volumeMounts := [getPvcOSDBridgeMountActivate mountPath osdProps.pvcClaimName] }

/-- `generateEncryptionOpenBlockContainer`: runs `openEncryptedBlock` for one
volume type; `volumeMountPVCName` picks the bridge, `pvcName` the dm name. -/
def generateEncryptionOpenBlockContainer (containerName pvcName volumeMountPVCName
    cryptBlockType blockType mountPath : String) : Container :=
  { name := containerName
    command := .bashC (.openEncryptedBlock encryptionKeyPath
      (encryptionBlockDestinationCopy mountPath blockType)
      (encryptionDMName pvcName cryptBlockType)
      (encryptionDMPath pvcName cryptBlockType))
    volumeMounts := [getPvcOSDBridgeMountActivate mountPath volumeMountPVCName,
                     getDeviceMapperMount] }

/-- `generateVaultGetKEK`: the key-retrieval init container running
`getKEKFromVaultWithToken`. -/
def generateVaultGetKEK (osdProps : OsdProperties) : Container :=
  { name := blockEncryptionKMSGetKEKInitContainer
    command := .bashC (.getKEKFromVaultWithToken
      (generateOSDEncryptionSecretName osdProps.pvcClaimName) encryptionKeyPath) }

/-- `getPVCEncryptionOpenInitContainerActivate`: optional KEK retrieval (Vault
with token auth), then open of block / metadata / wal — every open container
uses the bridge of the *primary* claim (`osdProps.pvc.ClaimName`). -/
def getPVCEncryptionOpenInitContainerActivate (c : ClusterEnv) (mountPath : String)
    (osdProps : OsdProperties) : List Container :=
  let kekPart : List Container :=
    if c.kmsEnabled ∧ c.kmsProvider = "vault" ∧ c.kmsTokenAuth then
      let base := generateVaultGetKEK osdProps
      [{ base with volumeMounts := base.volumeMounts
          ++ [(getEncryptionVolume osdProps).2] ++ [vaultVolumeAndMount.2] }]
    else []
  let blockContainer := generateEncryptionOpenBlockContainer
    blockEncryptionOpenInitContainer osdProps.pvcClaimName osdProps.pvcClaimName
    dmcryptBlockType bluestoreBlockName mountPath
  let blockContainer := { blockContainer with volumeMounts :=
    blockContainer.volumeMounts ++ [(getEncryptionVolume osdProps).2] }
  let metadataPart : List Container :=
    if osdProps.onPVCWithMetadata then
      let m := generateEncryptionOpenBlockContainer blockEncryptionOpenMetadataInitContainer
        osdProps.metadataPVCClaimName osdProps.pvcClaimName dmcryptMetadataType
        bluestoreMetadataName mountPath
      [{ m with volumeMounts := m.volumeMounts ++ [(getEncryptionVolume osdProps).2] }]
    else []
  let walPart : List Container :=
    if osdProps.onPVCWithWal then
      let w := generateEncryptionOpenBlockContainer blockEncryptionOpenWalInitContainer
        osdProps.walPVCClaimName osdProps.pvcClaimName dmcryptWalType
        bluestoreWalName mountPath
      [{ w with volumeMounts := w.volumeMounts ++ [(getEncryptionVolume osdProps).2] }]
    else []
  kekPart ++ [blockContainer] ++ metadataPart ++ walPart

/-- `generateEncryptionCopyBlockContainer`: copies an opened mapped device to
its final per-volume-type destination; `volumeMountPVCName` is the primary
block claim so every init container uses the same bridge. -/
def generateEncryptionCopyBlockContainer (containerName pvcName mountPath
    volumeMountPVCName blockName blockType : String) : Container :=
  { name := containerName
    command := .bashC (.blockDevMapper (encryptionDMPath pvcName blockType)
      (pathJoin mountPath blockName))
    volumeMounts := [getPvcOSDBridgeMountActivate mountPath volumeMountPVCName,
                     getDeviceMapperMount] }

/-- `getPVCEncryptionInitContainerActivate`: encrypted-block copies for block,
metadata and wal. -/
def getPVCEncryptionInitContainerActivate (mountPath : String)
    (osdProps : OsdProperties) : List Container :=
  [generateEncryptionCopyBlockContainer blockPVCMapperEncryptionInitContainer
    osdProps.pvcClaimName mountPath osdProps.pvcClaimName bluestoreBlockName
    dmcryptBlockType]
  ++ (if osdProps.metadataPVCClaimName ≠ "" then
        [generateEncryptionCopyBlockContainer blockPVCMapperEncryptionMetadataInitContainer
          osdProps.metadataPVCClaimName mountPath osdProps.pvcClaimName
          bluestoreMetadataName dmcryptMetadataType]
      else [])
  ++ (if osdProps.walPVCClaimName ≠ "" then
        [generateEncryptionCopyBlockContainer blockPVCMapperEncryptionWalInitContainer
          osdProps.walPVCClaimName mountPath osdProps.pvcClaimName
          bluestoreWalName dmcryptWalType]
      else [])

/-- `getPVCMetadataInitContainer` (legacy, not called by `makeDeployment`):
copies the metadata device into a bridge named after the *metadata* claim. -/
def getPVCMetadataInitContainer (osdProps : OsdProperties) : Container :=
  { name := blockPVCMetadataMapperInitContainer
    command := .bashC (.blockDevMapper ("/" ++ osdProps.metadataPVCClaimName)
      ("/srv/" ++ osdProps.metadataPVCClaimName))
    volumeDevices := [{ name := .claimVol osdProps.metadataPVCClaimName,
                        devicePath := "/" ++ osdProps.metadataPVCClaimName }]
    volumeMounts := [{ name := .bridge osdProps.metadataPVCClaimName, mountPath := "/srv" }] }

/-- `getPVCMetadataInitContainerActivate`: metadata device-to-bridge copy; the
mount is the bridge of the *primary* block claim. -/
def getPVCMetadataInitContainerActivate (mountPath : String)
    (osdProps : OsdProperties) : Container :=
  let cpDestinationName :=
    if osdProps.encrypted then encryptionBlockDestinationCopy mountPath bluestoreMetadataName
    else pathJoin mountPath bluestoreMetadataName
  { name := blockPVCMetadataMapperInitContainer
    command := .bashC (.blockDevMapper ("/" ++ osdProps.metadataPVCClaimName) cpDestinationName)
    volumeDevices := [{ name := .claimVol osdProps.metadataPVCClaimName,
                        devicePath := "/" ++ osdProps.metadataPVCClaimName }]
    volumeMounts := [getPvcOSDBridgeMountActivate mountPath osdProps.pvcClaimName] }

/-- `getPVCWalInitContainer` (legacy, not called by `makeDeployment`). -/
def getPVCWalInitContainer (osdProps : OsdProperties) : Container :=
  { name := blockPVCWalMapperInitContainer
    command := .bashC (.blockDevMapper ("/" ++ osdProps.walPVCClaimName)
      ("/wal/" ++ osdProps.walPVCClaimName))
    volumeDevices := [{ name := .claimVol osdProps.walPVCClaimName,
                        devicePath := "/" ++ osdProps.walPVCClaimName }]
    volumeMounts := [{ name := .bridge osdProps.walPVCClaimName, mountPath := "/wal" }] }

/-- `getPVCWalInitContainerActivate`: wal device-to-bridge copy, on the
primary claim's bridge. -/
def getPVCWalInitContainerActivate (mountPath : String)
    (osdProps : OsdProperties) : Container :=
  let cpDestinationName :=
    if osdProps.encrypted then encryptionBlockDestinationCopy mountPath bluestoreWalName
    else pathJoin mountPath bluestoreWalName
  { name := blockPVCWalMapperInitContainer
    command := .bashC (.blockDevMapper ("/" ++ osdProps.walPVCClaimName) cpDestinationName)
    volumeDevices := [{ name := .claimVol osdProps.walPVCClaimName,
                        devicePath := "/" ++ osdProps.walPVCClaimName }]
    volumeMounts := [getPvcOSDBridgeMountActivate mountPath osdProps.pvcClaimName] }

/-- `getActivatePVCInitContainer`: `ceph-bluestore-tool prime-osd-dir`. -/
def getActivatePVCInitContainer (osdProps : OsdProperties) (osdID : String) : Container :=
  let osdDataPath := activateOSDMountPath ++ osdID
  let osdDataBlockPath := pathJoin osdDataPath "block"
  { name := activatePVCOSDInitContainer
    command := .argv ["ceph-bluestore-tool"]
    args := ["prime-osd-dir", "--dev", osdDataBlockPath, "--path", osdDataPath,
             "--no-mon-config"]
    volumeDevices := [{ name := .claimVol osdProps.pvcClaimName,
                        devicePath := osdDataBlockPath }]
    volumeMounts := [getPvcOSDBridgeMountActivate osdDataPath osdProps.pvcClaimName] }

/-- `getExpandPVCInitContainer`: `ceph-bluestore-tool bluefs-bdev-expand`. -/
def getExpandPVCInitContainer (osdProps : OsdProperties) (osdID : String) : Container :=
  let osdDataPath := activateOSDMountPath ++ osdID
  { name := expandPVCOSDInitContainer
    command := .argv ["ceph-bluestore-tool"]
    args := ["bluefs-bdev-expand", "--path", osdDataPath]
    volumeMounts := [getPvcOSDBridgeMountActivate osdDataPath osdProps.pvcClaimName] }

/-- `getExpandEncryptedPVCInitContainer`: `cryptsetup resize` of the opened
block mapping, with `/dev/mapper` mounted. -/
def getExpandEncryptedPVCInitContainer (mountPath : String)
    (osdProps : OsdProperties) : Container :=
  { name := expandEncryptedPVCOSDInitContainer
    command := .argv ["cryptsetup"]
    args := ["--verbose", "resize", encryptionDMName osdProps.pvcClaimName dmcryptBlockType]
    volumeMounts := [getPvcOSDBridgeMountActivate mountPath osdProps.pvcClaimName,
                     getDeviceMapperVolume.2] }

/-- `getEncryptedStatusPVCInitContainer`: `cryptsetup status` of the opened
block mapping. -/
def getEncryptedStatusPVCInitContainer (mountPath : String)
    (osdProps : OsdProperties) : Container :=
  { name := encryptedPVCStatusOSDInitContainer
    command := .argv ["cryptsetup"]
    args := ["--verbose", "status", encryptionDMName osdProps.pvcClaimName dmcryptBlockType]
    volumeMounts := [getPvcOSDBridgeMountActivate mountPath osdProps.pvcClaimName] }

/-! ## OSD pipeline synthesis (`spec.go`): `makeDeployment` assembly -/

/-- `defaultTuneFastSettings`. -/
def defaultTuneFastSettings : List String :=
  ["--osd-op-num-threads-per-shard=2",
   "--osd-op-num-shards=8",
   "--osd-recovery-sleep=0",
   "--osd-snap-trim-sleep=0",
   "--osd-delete-sleep=0",
   "--bluestore-min-alloc-size=4096",
   "--bluestore-prefer-deferred-size=0",
   "--bluestore-compression-min-blob-size=8912",
   "--bluestore-compression-max-blob-size=65536",
   "--bluestore-max-blob-size=65536",
   "--bluestore-cache-size=3221225472",
   "--bluestore-throttle-cost-per-io=4000",
   "--bluestore-deferred-batch-ops=16"]

/-- `defaultTuneSlowSettings`. -/
def defaultTuneSlowSettings : List String :=
  ["--osd-recovery-sleep=0.1", "--osd-snap-trim-sleep=2", "--osd-delete-sleep=2"]

/-- "If CVMode is empty, this likely means we upgraded Rook": default it to
`lvm` before the branch analysis (`makeDeployment` prologue). -/
def defaultCVMode (osd : OSDInfo) : OSDInfo :=
  if osd.cvMode = "" then { osd with cvMode := "lvm" } else osd

/-- `doConfigInit` after the command-selection branches: initialized `true`,
cleared in the raw-on-PVC and non-PVC branches. -/
def doConfigInitF (props : OsdProperties) (osd : OSDInfo) : Bool :=
  props.onPVC && osd.cvMode == "lvm"

/-- `doBinaryCopyInit` after the command-selection branches. -/
def doBinaryCopyInitF (props : OsdProperties) (osd : OSDInfo) : Bool :=
  props.onPVC && osd.cvMode == "lvm"

/-- `doActivateOSDInit` after the command-selection branches: set only in the
final `else` (not on PVC with lvm, not on PVC with raw). -/
def doActivateOSDInitF (props : OsdProperties) (osd : OSDInfo) : Bool :=
  !(props.onPVC && osd.cvMode == "lvm") && !(props.onPVC && osd.cvMode == "raw")

/-- The daemon command and args of `makeDeployment` (lvm-on-PVC launches via
`tini`/`rook`, everything else runs `ceph-osd` directly), with the PVC tuning
flags, the logging/SDN flags and the IPv6 flag appended in source order. -/
def osdCommandAndArgs (c : ClusterEnv) (props : OsdProperties) (osd : OSDInfo)
    (osdID : String) : List String × List String :=
  let base : List String × List String :=
    if props.onPVC && osd.cvMode == "lvm" then
      ([pathJoin rookBinariesMountPath "tini"],
       ["--", pathJoin rookBinariesMountPath "rook",
        "ceph", "osd", "start", "--", "--foreground", "--id", osdID,
        "--fsid", c.fsid, "--cluster", "ceph", "--setuser", "ceph",
        "--setgroup", "ceph", "--crush-location=" ++ osd.location])
    else
      (["ceph-osd"],
       ["--foreground", "--id", osdID, "--fsid", c.fsid, "--setuser", "ceph",
        "--setgroup", "ceph", "--crush-location=" ++ osd.location])
  let args := base.2
  let args :=
    if props.onPVC then
      args ++ (if props.tuneSlowDeviceClass then defaultTuneSlowSettings
               else if props.tuneFastDeviceClass then defaultTuneFastSettings
               else [])
    else args
  let args := args ++ c.loggingFlags ++ c.sdnFlags
  let args := if c.ipv6 then args ++ ["--ms-bind-ipv6=true"] else args
  (base.1, args)

/-- The volume list at the point of the "empty volumes" check: pod volumes,
the `/dev` hostpath for non-PVC OSDs, the PVC volumes and (when encrypted raw)
the key volume plus the Vault TLS volume. -/
def volumesBeforeCheck (c : ClusterEnv) (props : OsdProperties) (osd : OSDInfo) :
    List Volume :=
  c.podVolumes
  ++ (if !props.onPVC then [{ name := .fixed "devices" }] else [])
  ++ (if props.onPVC then
        c.pvcOSDVolumes
        ++ (if props.encrypted && osd.cvMode == "raw" then
              [(getEncryptionVolume props).1]
              ++ (if c.kmsEnabled then [vaultVolumeAndMount.1] else [])
            else [])
      else [])

/-- The full volume list of the pod spec. -/
def assembledVolumes (c : ClusterEnv) (props : OsdProperties) (osd : OSDInfo)
    (osdID : String) : List Volume :=
  volumesBeforeCheck c props osd
  ++ [getUdevVolume.1]
  ++ (if props.encrypted then [getDeviceMapperVolume.1] else [])
  ++ (if doBinaryCopyInitF props osd then [getCopyBinariesContainer.1] else [])
  ++ (if doActivateOSDInitF props osd then
        [(getActivateOSDInitContainer osdID osd props).1]
      else [])

/-- The daemon container's volume mounts, accumulated in source order; the
same list is handed to the ownership-normalization init container. -/
def assembledVolumeMounts (c : ClusterEnv) (props : OsdProperties) (osd : OSDInfo)
    (osdID osdDataDirPath : String) : List VolumeMount :=
  c.cephVolumeMounts
  ++ (if !props.onPVC then [{ name := .fixed "devices", mountPath := "/dev" }] else [])
  ++ [getUdevVolume.2]
  ++ (if props.encrypted then [getDeviceMapperMount] else [])
  ++ (if doBinaryCopyInitF props osd then
        [{ name := .fixed rookBinariesVolumeName, mountPath := rookBinariesMountPath }]
      else [])
  ++ (if doActivateOSDInitF props osd then
        [((getActivateOSDInitContainer osdID osd props).2.volumeMounts).headD
           { name := .fixed "", mountPath := "" }]
      else [])
  ++ (if props.onPVC && osd.cvMode == "lvm" then
        [getPvcOSDBridgeMount props.pvcClaimName]
      else [])
  ++ (if props.onPVC && osd.cvMode == "raw" then
        [getPvcOSDBridgeMountActivate osdDataDirPath props.pvcClaimName]
      else [])

/-- The raw-on-PVC init-container block of `makeDeployment`: device-to-bridge
copies, then (when encrypted) KEK retrieval, opens, encrypted copies, status
and encrypted resize, then prime activation and capacity expansion. -/
def rawModeInitContainers (c : ClusterEnv) (props : OsdProperties)
    (osdDataDirPath osdID : String) : List Container :=
  [getPVCInitContainerActivate osdDataDirPath props]
  ++ (if props.onPVCWithMetadata then
        [getPVCMetadataInitContainerActivate osdDataDirPath props]
      else [])
  ++ (if props.onPVCWithWal then
        [getPVCWalInitContainerActivate osdDataDirPath props]
      else [])
  ++ (if props.encrypted then
        getPVCEncryptionOpenInitContainerActivate c osdDataDirPath props
        ++ getPVCEncryptionInitContainerActivate osdDataDirPath props
        ++ [getEncryptedStatusPVCInitContainer osdDataDirPath props,
            getExpandEncryptedPVCInitContainer osdDataDirPath props]
      else [])
  ++ [getActivatePVCInitContainer props osdID, getExpandPVCInitContainer props osdID]

/-- The complete init-container list of the OSD pod, in source order, ending
with the ownership-normalization container. -/
def assembledInitContainers (c : ClusterEnv) (props : OsdProperties)
    (osd : OSDInfo) : List Container :=
  let osdID := toString osd.id
  let osdDataDirPath := activateOSDMountPath ++ osdID
  (if doConfigInitF props osd then
     [{ name := configInitContainerName, args := ["ceph", "osd", "init"],
        volumeMounts := c.rookVolumeMounts }]
   else [])
  ++ (if doBinaryCopyInitF props osd then [getCopyBinariesContainer.2] else [])
  ++ (if props.onPVC && osd.cvMode == "lvm" then [getPVCInitContainer props] else [])
  ++ (if props.onPVC && osd.cvMode == "raw" then
        rawModeInitContainers c props osdDataDirPath osdID
      else [])
  ++ (if doActivateOSDInitF props osd then
        [(getActivateOSDInitContainer osdID osd props).2]
      else [])
  ++ [chownCephDataDirsInitContainer
        (if osd.cvMode == "raw" && props.onPVC then activateOSDMountPath ++ osdID else "")
        (assembledVolumeMounts c props osd osdID osdDataDirPath)]

/-- The terminal daemon container of the OSD pod: the selected command and
args, with the daemon's accumulated volume mounts. -/
def osdDaemonContainer (c : ClusterEnv) (props : OsdProperties) (osd : OSDInfo) :
    Container :=
  { name := "osd"
    command := .argv (osdCommandAndArgs c props osd (toString osd.id)).1
    args := (osdCommandAndArgs c props osd (toString osd.id)).2
    volumeMounts := assembledVolumeMounts c props osd (toString osd.id)
      (activateOSDMountPath ++ toString osd.id) }

/-- The pod spec, projected. -/
structure PodSpecM where
  hostNetwork : Bool
  hostPID : Bool
  hostIPC : Bool
  initContainers : List Container
  containers : List Container
  volumes : List Volume
deriving DecidableEq, Repr

/-- The produced deployment, projected. -/
structure DeploymentM where
  name : String
  podSpec : PodSpecM
deriving DecidableEq, Repr

instance : Inhabited DeploymentM :=
  ⟨{ name := ""
     podSpec := { hostNetwork := false, hostPID := false, hostIPC := false,
                  initContainers := [], containers := [], volumes := [] } }⟩

/-- `(*Cluster).makeDeployment`, transcribed onto the projected model:
CVMode defaulting, the "empty volumes" guard, command/args selection, host
namespace flags (`hostIPC` from the two encryption flags, `hostPID` below
Octopus), init-container assembly, terminal daemon container, optional log
collector, and the three fallible external calls (multus, owner reference,
topology affinity) in source order. -/
def makeDeployment (c : ClusterEnv) (props : OsdProperties) (osd0 : OSDInfo) :
    Except String DeploymentM :=
  let hostPID := !c.isAtLeastOctopus
  let deploymentName := "rook-ceph-osd-" ++ toString osd0.id
  let osd := defaultCVMode osd0
  if (volumesBeforeCheck c props osd).length = 0 then .error "empty volumes"
  else
    let osdID := toString osd.id
    let hostIPC := props.storeConfigEncryptedDevice || props.encrypted
    let osdContainer : Container := osdDaemonContainer c props osd
    let podSpec : PodSpecM :=
      { hostNetwork := c.networkIsHost, hostPID := hostPID, hostIPC := hostIPC,
        initContainers := assembledInitContainers c props osd,
        containers := [osdContainer]
          ++ (if c.logCollectorEnabled then [logCollectorContainer osdID] else []),
        volumes := assembledVolumes c props osd osdID }
    if !c.networkIsHost && c.networkIsMultus && !c.multusOk then
      .error "failed to apply multus"
    else if !c.setOwnerRefOk then
      .error "failed to set owner reference to osd deployment"
    else if props.portable && osd.topologyAffinity ≠ "" && !c.nodeAffinityOk then
      .error "failed to generate osd topology affinity"
    else
      .ok { name := deploymentName, podSpec := podSpec }

/-! ## Derived notions and concrete scenario inputs used by the theorems -/

/-- The identity a listed deployment advertises: its `rbd-mirror` label parsed
by `nameToIndex` (`none` when the label is missing or unparsable). -/
def mirrorIdentity (d : MirrorDeployment) : Option Nat :=
  (lookupLabel d.labels "rbd-mirror").bind nameToIndex

/-- Whether the cleanup loop will act on a listed deployment: a parseable
identity different from the canonical 0. -/
def isNonCanonicalMirror (d : MirrorDeployment) : Bool :=
  match mirrorIdentity d with
  | some (_ + 1) => true
  | _ => false

/-- Names of the deployments the cleanup loop deletes out of a listed
snapshot. -/
def removedMirrorNames (items : List MirrorDeployment) : List String :=
  (items.filter isNonCanonicalMirror).map (·.name)

/-- Cephx users whose credentials the cleanup loop deletes out of a listed
snapshot. -/
def removedMirrorCreds (items : List MirrorDeployment) : List String :=
  items.filterMap (fun d =>
    match lookupLabel d.labels "rbd-mirror" with
    | none => none
    | some daemonName =>
      match nameToIndex daemonName with
      | some (_ + 1) => some (fullDaemonName daemonName)
      | _ => none)

/-- A `MirrorEnv` in which every external call succeeds and the in-place
update is accepted. -/
def mirrorEnvNoFaults : MirrorEnv := {}

/-- The canonical bridge mount of a topology: the raw-on-PVC pipeline mounts
the primary claim's bridge at the OSD data dir, every other PVC pipeline
mounts it at `/mnt`. -/
def canonicalBridgeMount (props : OsdProperties) (osd : OSDInfo)
    (osdDataDirPath : String) : VolumeMount :=
  if props.onPVC && osd.cvMode == "raw" then
    getPvcOSDBridgeMountActivate osdDataDirPath props.pvcClaimName
  else
    getPvcOSDBridgeMount props.pvcClaimName

/-- The deployment `makeDeployment` produced, or a default on error — used to
evaluate theorems at concrete inputs. -/
def makeDeploymentOkOr (c : ClusterEnv) (props : OsdProperties) (osd : OSDInfo) :
    DeploymentM :=
  match makeDeployment c props osd with
  | .ok d => d
  | .error _ => default

/-- The ordered init-container names of a successfully built plan. -/
def planStepNames (c : ClusterEnv) (props : OsdProperties) (osd : OSDInfo) :
    Option (List String) :=
  match makeDeployment c props osd with
  | .ok d => some (d.podSpec.initContainers.map (·.name))
  | .error _ => none

/-- Device-copy state in which source and destination are distinct block
devices whose `stat '%t%T'` hex renderings collide: source is major 18 (hex
`12`), minor 3; destination is major 1, minor 35 (hex `23`) — both render as
`"123"`. -/
def blockCopyCollisionState : BlockCopyState :=
  { sourceMajor := 18, sourceMinor := 3, sourceContent := 1,
    dest := some (.block 1 35 0) }

/-- A CephRBDMirror whose object name differs from the fixed deployment name
`rook-ceph-rbd-mirror-a`. -/
def c4CR : CephRBDMirror :=
  { name := "my-mirror", memoryLimitMB := none, count := 1, specId := 2 }

/-- A live rbd-mirror deployment built from an older plan. -/
def c4Stale : MirrorDeployment :=
  { name := "rook-ceph-rbd-mirror-a",
    labels := [("app", rbdMirrorAppName), ("rbd-mirror", "a")], specId := 1 }

def c4State : MirrorClusterState :=
  { deployments := [c4Stale], cephxKeys := [], keyrings := [] }

/-- Environment in which the in-place update is rejected and everything else
succeeds. -/
def c4Env : MirrorEnv := { updateOk := false }

/-- A single live mirror deployment with the non-canonical identity 1. -/
def c5SingleB : MirrorDeployment :=
  { name := "rook-ceph-rbd-mirror-b",
    labels := [("app", rbdMirrorAppName), ("rbd-mirror", "b")], specId := 1 }

def c5State : MirrorClusterState :=
  { deployments := [c5SingleB], cephxKeys := [fullDaemonName "b"], keyrings := [] }

def c5WitnessA : MirrorDeployment :=
  { name := "rook-ceph-rbd-mirror-a",
    labels := [("app", rbdMirrorAppName), ("rbd-mirror", "a")], specId := 0 }

def c5WitnessState : MirrorClusterState :=
  { deployments := [c5WitnessA, c5SingleB], cephxKeys := [fullDaemonName "b"],
    keyrings := [] }

def c6DeployA : MirrorDeployment :=
  { name := "rook-ceph-rbd-mirror-a",
    labels := [("app", rbdMirrorAppName), ("rbd-mirror", "a")], specId := 0 }

def c6DeployB : MirrorDeployment :=
  { name := "rook-ceph-rbd-mirror-b",
    labels := [("app", rbdMirrorAppName), ("rbd-mirror", "b")], specId := 0 }

def c6DeployC : MirrorDeployment :=
  { name := "rook-ceph-rbd-mirror-c",
    labels := [("app", rbdMirrorAppName), ("rbd-mirror", "c")], specId := 0 }

def c6State : MirrorClusterState :=
  { deployments := [c6DeployA, c6DeployB, c6DeployC],
    cephxKeys := [fullDaemonName "b", fullDaemonName "c"], keyrings := [] }

/-- Environment in which deleting the credential of daemon `b` fails and
everything else succeeds. -/
def c6Env : MirrorEnv := { authDeleteFault := fun s => s == fullDaemonName "b" }

/-- Environment in which deleting the deployment of daemon `b` fails and
everything else succeeds. -/
def c6DeployFaultEnv : MirrorEnv :=
  { deleteDeploymentFault := fun n => n == "rook-ceph-rbd-mirror-b" }

/-- A CephRBDMirror requesting 256 MB, below the 512 MB minimum. -/
def c10CR : CephRBDMirror :=
  { name := "small-mirror", memoryLimitMB := some 256, count := 1, specId := 0 }

/-- Concrete cluster context for the end-to-end OSD example: Vault KMS with
token auth, one opaque pod volume, log collector off. -/
def exClusterEnv : ClusterEnv :=
  { kmsEnabled := true, kmsProvider := "vault", kmsTokenAuth := true,
    podVolumes := [{ name := .fixed "rook-data" }] }

/-- Concrete topology for the end-to-end OSD example: encrypted raw-mode PVC
with a separate metadata claim. -/
def exProps : OsdProperties :=
  { pvcClaimName := "set1-data-0", metadataPVCClaimName := "set1-md-0",
    encrypted := true }

def exOsd : OSDInfo :=
  { id := 0, uuid := "some-uuid", cvMode := "raw", blockPath := "/dev/xvdbv" }

/-- The init-container name sequence the raw-encrypted-metadata-KMS topology
actually produces. -/
def exActualStepNames : List String :=
  [blockPVCMapperInitContainer, blockPVCMetadataMapperInitContainer,
   blockEncryptionKMSGetKEKInitContainer, blockEncryptionOpenInitContainer,
   blockEncryptionOpenMetadataInitContainer, blockPVCMapperEncryptionInitContainer,
   blockPVCMapperEncryptionMetadataInitContainer, encryptedPVCStatusOSDInitContainer,
   expandEncryptedPVCOSDInitContainer, activatePVCOSDInitContainer,
   expandPVCOSDInitContainer, chownContainerName]

/-- The init-container name sequence the claim asserts for that topology
(key-retrieval first; no device-to-bridge copy steps). -/
def exClaimedStepNames : List String :=
  [blockEncryptionKMSGetKEKInitContainer, blockEncryptionOpenInitContainer,
   blockEncryptionOpenMetadataInitContainer, blockPVCMapperEncryptionInitContainer,
   blockPVCMapperEncryptionMetadataInitContainer, encryptedPVCStatusOSDInitContainer,
   expandEncryptedPVCOSDInitContainer, activatePVCOSDInitContainer,
   expandPVCOSDInitContainer, chownContainerName]

/-! # Theorems -/

/-! ## C2 — device-copy idempotence vs the `stat '%t%T'` comparison -/

/-- C2: the claim "if the major/minor numbers differ, the copy always
force-overwrites the destination" fails on the code.  `blockDevMapper`
compares the concatenated hex renderings produced by `stat --format '%t%T'`;
the distinct pairs (18, 3) (hex `12`/`3`) and (1, 35) (hex `1`/`23`) both
render as `"123"`, so the script adds `--no-clobber` and leaves the stale
destination in place, contradicting the source's own comment ("If the disk
identifier changes (different major and minor) we must force copy"). -/
theorem blockDevMapper_hex_collision_no_overwrite :
    ((18, 3) : Nat × Nat) ≠ (1, 35)
    ∧ statMajMin 18 3 = statMajMin 1 35
    ∧ blockDevMapperMode blockCopyCollisionState = .noClobber
    ∧ cpRun .noClobber blockCopyCollisionState = .ok blockCopyCollisionState := by
  refine ⟨by decide, rfl, rfl, rfl⟩

/-! ## C3 — key-file lifecycle -/

/-- C3 counterexample: the temporary key file survives the return of the
steps.  (a) After a successful key-retrieval run the key file exists (it is
the hand-off to the open step); (b) when the mapping is already open and
healthy the open step succeeds without consuming the key file; (c) when a
fresh `luksOpen` fails the key file is left behind (the `rm -f` sits after
`cryptsetup` under `set -e`). -/
theorem keyfile_persists_after_steps :
    getKEKRun ⟨true, false, false, true, 5⟩ none = (true, some 5, false)
    ∧ openEncryptedBlockRun ⟨true⟩ ⟨some 5, true, true⟩ = (true, ⟨some 5, true, true⟩)
    ∧ openEncryptedBlockRun ⟨false⟩ ⟨some 5, false, true⟩ = (false, ⟨some 5, false, true⟩)
    ∧ (some 5 : Option Nat) ≠ none := by
  refine ⟨rfl, rfl, rfl, by decide⟩

/-- C3 amended: the key file is deleted exactly when the open step performs a
fresh successful `luksOpen`; a successful retrieval leaves the key file in
place for the open step; a failed retrieval leaves no key file except when the
payload passes the warning and error checks but lacks the key field, in which
case the aborted redirection leaves an empty key file; the curl payload temp
file is removed exactly on success. -/
theorem key_file_lifecycle (resp : VaultResponse) (env : OpenBlockEnv)
    (st : OpenBlockState) :
    (getKEKRun resp none).2.1 =
      (if ¬ resp.curlOk ∨ (resp.hasWarnings ∧ ¬ resp.hasKey) ∨ resp.hasErrors then none
       else if resp.hasKey then some resp.keyValue else some 0)
    ∧ (getKEKRun resp none).2.2 = !(getKEKRun resp none).1
    ∧ (openEncryptedBlockRun env st).2.keyFile =
        (if (¬ st.dmOpen ∨ ¬ st.underlyingPresent) ∧ st.keyFile.isSome ∧ env.luksOpenOk
         then none else st.keyFile) := by
  obtain ⟨cu, w, e, k, v⟩ := resp
  obtain ⟨lo⟩ := env
  obtain ⟨kf, dm, up⟩ := st
  refine ⟨?_, ?_, ?_⟩
  · cases cu <;> cases w <;> cases e <;> cases k <;> simp [getKEKRun]
  · cases cu <;> cases w <;> cases e <;> cases k <;> simp [getKEKRun]
  · cases dm <;> cases up <;> cases lo <;> cases kf <;>
      simp [openEncryptedBlockRun, openEncBlockCall]

/-! ## C7 — re-entrant encrypted-device open -/

/-- C7: the open step is re-entrant.  With a healthy existing mapping it
succeeds and changes nothing; with a stale mapping (backing device gone) it
removes the mapping and re-opens, ending open exactly when a key file is
present and `luksOpen` succeeds; with no mapping it opens under the same
condition. -/
theorem encryption_open_reentrant (env : OpenBlockEnv) (st : OpenBlockState) :
    (st.dmOpen = true → st.underlyingPresent = true →
      openEncryptedBlockRun env st = (true, st))
    ∧ (st.dmOpen = true → st.underlyingPresent = false →
      (openEncryptedBlockRun env st).1 = (st.keyFile.isSome && env.luksOpenOk)
      ∧ (openEncryptedBlockRun env st).2.dmOpen = (st.keyFile.isSome && env.luksOpenOk)
      ∧ (openEncryptedBlockRun env st).2.keyFile =
          (if st.keyFile.isSome ∧ env.luksOpenOk then none else st.keyFile))
    ∧ (st.dmOpen = false →
      (openEncryptedBlockRun env st).1 = (st.keyFile.isSome && env.luksOpenOk)
      ∧ (openEncryptedBlockRun env st).2.dmOpen = (st.keyFile.isSome && env.luksOpenOk)) := by
  obtain ⟨lo⟩ := env
  obtain ⟨kf, dm, up⟩ := st
  refine ⟨?_, ?_, ?_⟩ <;>
    cases dm <;> cases up <;> cases lo <;> cases kf <;>
      simp [openEncryptedBlockRun, openEncBlockCall]

/-- Witness for C7 at concrete states: a healthy mapping is kept as is; a
stale mapping with a key present and a working `luksOpen` ends re-opened with
the key consumed; with no mapping and no key the open fails. -/
theorem encryption_open_reentrant_witness :
    openEncryptedBlockRun ⟨false⟩ ⟨some 5, true, true⟩ = (true, ⟨some 5, true, true⟩)
    ∧ ((openEncryptedBlockRun ⟨true⟩ ⟨some 5, true, false⟩).1 = true
       ∧ (openEncryptedBlockRun ⟨true⟩ ⟨some 5, true, false⟩).2.dmOpen = true
       ∧ (openEncryptedBlockRun ⟨true⟩ ⟨some 5, true, false⟩).2.keyFile = none)
    ∧ ((openEncryptedBlockRun ⟨true⟩ ⟨none, false, true⟩).1 = false
       ∧ (openEncryptedBlockRun ⟨true⟩ ⟨none, false, true⟩).2.dmOpen = false) := by
  refine ⟨(encryption_open_reentrant ⟨false⟩ ⟨some 5, true, true⟩).1 rfl rfl, ?_, ?_⟩
  · have h := (encryption_open_reentrant ⟨true⟩ ⟨some 5, true, false⟩).2.1 rfl rfl
    exact ⟨h.1, h.2.1, by simpa using h.2.2⟩
  · have h := (encryption_open_reentrant ⟨true⟩ ⟨none, false, true⟩).2.2 rfl
    exact ⟨by simpa using h.1, by simpa using h.2⟩

/-! ## C10 — memory pre-check atomicity -/

/-- C10: when the specified pod memory is below the 512 MB minimum, `start`
returns the memory-check error with the cluster state untouched and an empty
API trace — no keyring generated, no deployment created, updated or
deleted. -/
theorem memory_check_before_mutation (env : MirrorEnv) (cr : CephRBDMirror)
    (st : MirrorClusterState) (m : Nat) (hm : cr.memoryLimitMB = some m)
    (hlt : m < 512) :
    startRBDMirror env cr st = (.error "error checking pod memory", st, []) := by
  have hbad : checkPodMemoryOk cr.memoryLimitMB cephRbdMirrorPodMinimumMemory = false := by
    rw [hm]
    simp only [checkPodMemoryOk, cephRbdMirrorPodMinimumMemory, decide_eq_false_iff_not]
    omega
  simp [startRBDMirror, hbad]

/-- Witness for C10: a 256 MB CephRBDMirror is rejected before any mutation. -/
theorem memory_check_before_mutation_witness :
    startRBDMirror mirrorEnvNoFaults c10CR ⟨[], [], []⟩ =
      (.error "error checking pod memory", ⟨[], [], []⟩, []) :=
  memory_check_before_mutation mirrorEnvNoFaults c10CR ⟨[], [], []⟩ 256 rfl (by decide)

/-! ## C4 — the recreate fallback deletes the wrong resource -/

/-- C4: evaluating `start` at a CephRBDMirror named `my-mirror` with a live
conflicting deployment `rook-ceph-rbd-mirror-a` and a rejected in-place
update.  The fallback issues its single delete against the deployment named
after the custom resource (`cephRBDMirror.Name`, here `my-mirror`) instead of
the live deployment; the delete fails with not-found, the error is surfaced,
no recreate happens, and the stale live resource (old `specId`) survives the
reconcile — the claim's "delete of that live resource followed by recreate
from the desired plan" never happens whenever the CR name differs from the
deployment name. -/
theorem recreate_fallback_deletes_wrong_name :
    startRBDMirror c4Env c4CR c4State =
      (.error "failed to delete rbd-mirror during del-and-recreate",
       { deployments := [c4Stale], cephxKeys := [],
         keyrings := ["rook-ceph-rbd-mirror-a"] },
       [.keyringGen "a", .createDep "rook-ceph-rbd-mirror-a",
        .updateDep "rook-ceph-rbd-mirror-a", .deleteDep "my-mirror"])
    ∧ c4CR.name ≠ c4Stale.name
    ∧ c4Stale.specId ≠ c4CR.specId := by
  refine ⟨rfl, by decide, by decide⟩

/-! ## Cleanup-loop lemmas (shared by the C5 and C6 theorems) -/

/-- Elements of a list with nodup images under `f` are determined by their
image. -/
theorem nodup_map_inj {α β : Type} {f : α → β} {l : List α}
    (h : (l.map f).Nodup) {x y : α} (hx : x ∈ l) (hy : y ∈ l) (hf : f x = f y) :
    x = y := by
  induction l with
  | nil => cases hx
  | cons a t ih =>
    simp only [List.map_cons, List.nodup_cons] at h
    rcases List.mem_cons.1 hx with rfl | hx2 <;> rcases List.mem_cons.1 hy with rfl | hy2
    · rfl
    · exact absurd (by rw [hf]; exact List.mem_map_of_mem f hy2) h.1
    · exact absurd (by rw [← hf]; exact List.mem_map_of_mem f hx2) h.1
    · exact ih h.2 hx2 hy2

/-- As long as every credential deletion succeeds, the cleanup loop never
aborts, whatever happens to the deployment deletions. -/
theorem removeExtraLoop_ok (env : MirrorEnv)
    (hauth : ∀ s, env.authDeleteFault s = false) :
    ∀ (items : List MirrorDeployment) (st : MirrorClusterState) (tr : List ApiOp),
      (removeExtraLoop env items st tr).1 = .ok () := by
  intro items
  induction items with
  | nil => intro st tr; rfl
  | cons deploy rest ih =>
    intro st tr
    simp only [removeExtraLoop]
    cases h1 : lookupLabel deploy.labels "rbd-mirror" with
    | none => exact ih _ _
    | some daemonName =>
      dsimp only
      cases h2 : nameToIndex daemonName with
      | none => exact ih _ _
      | some n =>
        cases n with
        | zero => exact ih _ _
        | succ k =>
          dsimp only
          rw [if_neg (by simp [hauth])]
          exact ih _ _

/-- A fault-free delete observed through the loop's "log and continue"
recovery: the deployments of that name are gone, nothing else changes
(deleting an absent name is a logged not-found, which is the same state). -/
theorem deleteDeployment_noFault_state (st : MirrorClusterState) (name : String) :
    (match deleteDeployment false st name with
      | .error _ => st
      | .ok st' => st') =
      { st with deployments := st.deployments.filter (fun e => e.name ≠ name) } := by
  unfold deleteDeployment
  by_cases hany : st.deployments.any (fun e => e.name = name) = true
  · simp [hany]
  · have hfilter : List.filter (fun e => !decide (e.name = name)) st.deployments
        = st.deployments := by
      refine List.filter_eq_self.2 ?_
      intro e he
      simp only [Bool.not_eq_true', decide_eq_false_iff_not]
      intro hEq
      exact hany (List.any_eq_true.2 ⟨e, he, by simp [hEq]⟩)
    simp [hany, hfilter]

/-- State characterization of a fault-free cleanup loop: it removes exactly
the deployments named by non-canonical listed items and exactly their
credentials, and touches nothing else. -/
theorem removeExtraLoop_state (env : MirrorEnv)
    (hdel : ∀ n, env.deleteDeploymentFault n = false)
    (hauth : ∀ s, env.authDeleteFault s = false) :
    ∀ (items : List MirrorDeployment) (st : MirrorClusterState) (tr : List ApiOp),
      (removeExtraLoop env items st tr).2.1.deployments
        = st.deployments.filter (fun e => ¬ e.name ∈ removedMirrorNames items)
      ∧ (removeExtraLoop env items st tr).2.1.cephxKeys
        = st.cephxKeys.filter (fun k => ¬ k ∈ removedMirrorCreds items)
      ∧ (removeExtraLoop env items st tr).2.1.keyrings = st.keyrings := by
  intro items
  induction items with
  | nil =>
    intro st tr
    refine ⟨?_, ?_, rfl⟩ <;> simp [removedMirrorNames, removedMirrorCreds, removeExtraLoop]
  | cons deploy rest ih =>
    intro st tr
    simp only [removeExtraLoop]
    cases h1 : lookupLabel deploy.labels "rbd-mirror" with
    | none =>
      have hn : removedMirrorNames (deploy :: rest) = removedMirrorNames rest := by
        simp [removedMirrorNames, isNonCanonicalMirror, mirrorIdentity, h1]
      have hc : removedMirrorCreds (deploy :: rest) = removedMirrorCreds rest := by
        simp [removedMirrorCreds, h1]
      rw [hn, hc]
      exact ih st tr
    | some daemonName =>
      dsimp only
      cases h2 : nameToIndex daemonName with
      | none =>
        have hn : removedMirrorNames (deploy :: rest) = removedMirrorNames rest := by
          simp [removedMirrorNames, isNonCanonicalMirror, mirrorIdentity, h1, h2]
        have hc : removedMirrorCreds (deploy :: rest) = removedMirrorCreds rest := by
          simp [removedMirrorCreds, h1, h2]
        rw [hn, hc]
        exact ih st tr
      | some n =>
        cases n with
        | zero =>
          have hn : removedMirrorNames (deploy :: rest) = removedMirrorNames rest := by
            simp [removedMirrorNames, isNonCanonicalMirror, mirrorIdentity, h1, h2]
          have hc : removedMirrorCreds (deploy :: rest) = removedMirrorCreds rest := by
            simp [removedMirrorCreds, h1, h2]
          rw [hn, hc]
          exact ih st tr
        | succ k =>
          dsimp only
          rw [if_neg (by simp [hauth])]
          rw [hdel, deleteDeployment_noFault_state]
          have hn : removedMirrorNames (deploy :: rest)
              = deploy.name :: removedMirrorNames rest := by
            simp [removedMirrorNames, isNonCanonicalMirror, mirrorIdentity, h1, h2]
          have hc : removedMirrorCreds (deploy :: rest)
              = fullDaemonName daemonName :: removedMirrorCreds rest := by
            simp [removedMirrorCreds, h1, h2]
          rw [hn, hc]
          obtain ⟨ihd, ihk, ihr⟩ := ih
            { deployments := st.deployments.filter (fun e => e.name ≠ deploy.name),
              cephxKeys := st.cephxKeys.filter (fun c => c ≠ fullDaemonName daemonName),
              keyrings := st.keyrings }
            (tr ++ [.deleteDep deploy.name] ++ [.authDel (fullDaemonName daemonName)])
          refine ⟨?_, ?_, ?_⟩
          · rw [ihd]
            simp only [List.filter_filter]
            refine List.filter_congr ?_
            intro e _
            simp [List.mem_cons, not_or, Bool.and_comm]
          · rw [ihk]
            simp only [List.filter_filter]
            refine List.filter_congr ?_
            intro c _
            simp [List.mem_cons, not_or, Bool.and_comm]
          · exact ihr

/-! ## C5 — singleton cleanup -/

/-- C5 counterexample: with exactly one live class-labeled deployment carrying
the non-canonical identity 1, the cleanup pass does nothing (`len(d.Items) >
1` fails), so the remaining instance is not the canonical identity 0 and its
credential survives — refuting "given N ≥ 1 … exactly one (identity 0)
remains". -/
theorem singleton_cleanup_skips_single_noncanonical :
    removeExtraMirrors mirrorEnvNoFaults c5State = (.ok (), c5State, [.listDeps])
    ∧ hasMirrorAppLabel c5SingleB = true
    ∧ mirrorIdentity c5SingleB = some 1 := ⟨rfl, rfl, rfl⟩

/-- C5 amended: given at least two live class-labeled deployments with unique
names, each class-labeled deployment carrying a parseable identity label, and
all deletions succeeding, the cleanup pass succeeds, the class-labeled
deployments that remain are exactly those with the canonical identity 0, and
the credential of every removed (non-canonical) identity is deleted.  (With
one live deployment the pass does nothing, and unparsable identities are
skipped — hence the strengthened hypotheses.) -/
theorem singleton_cleanup_removes_noncanonical (env : MirrorEnv)
    (st : MirrorClusterState)
    (hdel : ∀ n, env.deleteDeploymentFault n = false)
    (hauth : ∀ s, env.authDeleteFault s = false)
    (hlist : env.listFault = false)
    (hnodup : (st.deployments.map (·.name)).Nodup)
    (hparse : ∀ d ∈ st.deployments, hasMirrorAppLabel d = true → (mirrorIdentity d).isSome)
    (hN : 1 < (st.deployments.filter hasMirrorAppLabel).length) :
    (removeExtraMirrors env st).1 = .ok ()
    ∧ (removeExtraMirrors env st).2.1.deployments.filter hasMirrorAppLabel
        = (st.deployments.filter hasMirrorAppLabel).filter
            (fun d => mirrorIdentity d = some 0)
    ∧ (∀ d ∈ st.deployments, hasMirrorAppLabel d = true →
        isNonCanonicalMirror d = true →
        ∀ dn, lookupLabel d.labels "rbd-mirror" = some dn →
          ¬ fullDaemonName dn ∈ (removeExtraMirrors env st).2.1.cephxKeys) := by
  have hunfold : removeExtraMirrors env st
      = removeExtraLoop env (st.deployments.filter hasMirrorAppLabel) st [.listDeps] := by
    simp [removeExtraMirrors, hlist, hN]
  obtain ⟨hd, hk, hr⟩ := removeExtraLoop_state env hdel hauth
    (st.deployments.filter hasMirrorAppLabel) st [.listDeps]
  have hitemsub : ∀ e, e ∈ st.deployments.filter hasMirrorAppLabel → e ∈ st.deployments :=
    fun e he => (List.mem_filter.1 he).1
  refine ⟨?_, ?_, ?_⟩
  · rw [hunfold]
    exact removeExtraLoop_ok env hauth _ _ _
  · rw [hunfold, hd, List.filter_filter, List.filter_filter]
    refine List.filter_congr ?_
    intro e he
    by_cases hcl : hasMirrorAppLabel e = true
    · have hid := hparse e he hcl
      cases hmi : mirrorIdentity e with
      | none => rw [hmi] at hid; cases hid
      | some i =>
        cases i with
        | zero =>
          have hnotmem : ¬ e.name ∈
              removedMirrorNames (st.deployments.filter hasMirrorAppLabel) := by
            intro hmem
            obtain ⟨e2, he2mem, he2name⟩ := List.mem_map.1 hmem
            have he2items := (List.mem_filter.1 he2mem).1
            have he2nc : isNonCanonicalMirror e2 = true := (List.mem_filter.1 he2mem).2
            have : e2 = e :=
              nodup_map_inj hnodup (hitemsub e2 he2items) he he2name
            rw [this] at he2nc
            simp [isNonCanonicalMirror, hmi] at he2nc
          simp [hcl, hmi, hnotmem]
        | succ j =>
          have hmem : e.name ∈
              removedMirrorNames (st.deployments.filter hasMirrorAppLabel) := by
            refine List.mem_map.2 ⟨e, List.mem_filter.2 ⟨List.mem_filter.2 ⟨he, hcl⟩, ?_⟩, rfl⟩
            simp [isNonCanonicalMirror, hmi]
          simp [hcl, hmi, hmem]
    · simp only [Bool.not_eq_true] at hcl
      simp [hcl]
  · intro d hd2 hcl hnc dn hdn
    rw [hunfold, hk]
    intro hmem
    have hnotin : ¬ fullDaemonName dn ∈
        removedMirrorCreds (st.deployments.filter hasMirrorAppLabel) := by
      have := (List.mem_filter.1 hmem).2
      simpa using this
    apply hnotin
    refine List.mem_filterMap.2 ⟨d, List.mem_filter.2 ⟨hd2, hcl⟩, ?_⟩
    cases hni : nameToIndex dn with
    | none => simp [isNonCanonicalMirror, mirrorIdentity, hdn, hni] at hnc
    | some i =>
      cases i with
      | zero => simp [isNonCanonicalMirror, mirrorIdentity, hdn, hni] at hnc
      | succ j => simp [hdn, hni]

/-- Witness for C5 at two live deployments (identities 0 and 1) with no
faults: cleanup succeeds, only the canonical `a` remains class-labeled, and
`b`'s credential is gone. -/
theorem singleton_cleanup_removes_noncanonical_witness :
    (removeExtraMirrors mirrorEnvNoFaults c5WitnessState).1 = .ok ()
    ∧ (removeExtraMirrors mirrorEnvNoFaults c5WitnessState).2.1.deployments.filter
          hasMirrorAppLabel
        = (c5WitnessState.deployments.filter hasMirrorAppLabel).filter
            (fun d => mirrorIdentity d = some 0)
    ∧ (∀ d ∈ c5WitnessState.deployments, hasMirrorAppLabel d = true →
        isNonCanonicalMirror d = true →
        ∀ dn, lookupLabel d.labels "rbd-mirror" = some dn →
          ¬ fullDaemonName dn ∈
            (removeExtraMirrors mirrorEnvNoFaults c5WitnessState).2.1.cephxKeys) :=
  singleton_cleanup_removes_noncanonical mirrorEnvNoFaults c5WitnessState
    (fun _ => rfl) (fun _ => rfl) rfl (by decide) (by decide) (by decide)

/-! ## C6 — cleanup failure handling -/

/-- C6 counterexample: with three live mirrors `a`, `b`, `c` (identities 0, 1,
2) and a failing credential delete for `b`, the cleanup pass deletes `b`'s
deployment, then aborts on the credential failure: `c`'s stale deployment and
both credentials survive — a credential-delete failure does prevent the
cleanup of the remaining stale replicas. -/
theorem credential_failure_aborts_cleanup :
    (removeExtraMirrors c6Env c6State).1 = .error "failed to delete cephx key"
    ∧ (removeExtraMirrors c6Env c6State).2.1.deployments = [c6DeployA, c6DeployC]
    ∧ (removeExtraMirrors c6Env c6State).2.1.cephxKeys
        = [fullDaemonName "b", fullDaemonName "c"]
    ∧ isNonCanonicalMirror c6DeployC = true := ⟨rfl, rfl, rfl, rfl⟩

/-- C6 amended: a failed deployment delete is only logged — the cleanup pass
always succeeds when credential deletions succeed, whatever happens to the
deployment deletions; and the reconcile (`start`) succeeds whenever the
phases before cleanup succeed, whatever the cleanup does — a failed
credential delete aborts only the remainder of the cleanup pass (see the
counterexample), its error being merely logged by the caller. -/
theorem cleanup_failures_nonfatal :
    (∀ (env : MirrorEnv) (st : MirrorClusterState),
      (∀ s, env.authDeleteFault s = false) → env.listFault = false →
      (removeExtraMirrors env st).1 = .ok ())
    ∧ (∀ (env : MirrorEnv) (cr : CephRBDMirror) (st : MirrorClusterState),
      checkPodMemoryOk cr.memoryLimitMB cephRbdMirrorPodMinimumMemory = true →
      env.ownerRefOk = true → env.keyringOk = true → env.setRefOk = true →
      env.annotateOk = true → env.createFault1 = false → env.updateOk = true →
      (startRBDMirror env cr st).1 = .ok ()) := by
  constructor
  · intro env st hauth hlist
    simp only [removeExtraMirrors, hlist, Bool.false_eq_true, if_false]
    split
    · exact removeExtraLoop_ok env hauth _ _ _
    · rfl
  · intro env cr st hmem hown hkey hsetref hannot hc1 hupd
    simp only [startRBDMirror, hmem, hown, hkey, hsetref, hannot, hc1,
      createDeployment, updateDeploymentAndWait, hupd]
    simp only [not_true_eq_false, Bool.false_eq_true, if_false, ite_true, ite_false]
    split
    · rfl
    · rfl
    · rename_i a hne heq
      split at heq
      · cases heq
        exact absurd rfl hne
      · cases heq

/-- Witness for C6: with a failing delete of `b`'s deployment (and credential
deletions succeeding), both the cleanup pass and a full reconcile against the
three-mirror state return ok. -/
theorem cleanup_failures_nonfatal_witness :
    (removeExtraMirrors c6DeployFaultEnv c6State).1 = .ok ()
    ∧ (startRBDMirror c6DeployFaultEnv c4CR c6State).1 = .ok () :=
  ⟨cleanup_failures_nonfatal.1 c6DeployFaultEnv c6State (fun _ => rfl) rfl,
   cleanup_failures_nonfatal.2 c6DeployFaultEnv c4CR c6State rfl rfl rfl rfl rfl rfl rfl⟩

/-! ## `makeDeployment` inversion (shared by the C1, C8 and C9 theorems) -/

/-- Whatever succeeds out of `makeDeployment` is the assembled pod: named
after the OSD id, host-IPC from the two encryption flags, host-PID below
Octopus, the assembled init containers and the daemon container (plus the
optional log collector). -/
theorem makeDeployment_ok_inv (c : ClusterEnv) (props : OsdProperties)
    (osd0 : OSDInfo) (d : DeploymentM) (hok : makeDeployment c props osd0 = .ok d) :
    d.name = "rook-ceph-osd-" ++ toString osd0.id
    ∧ d.podSpec.hostIPC = (props.storeConfigEncryptedDevice || props.encrypted)
    ∧ d.podSpec.hostPID = !c.isAtLeastOctopus
    ∧ d.podSpec.hostNetwork = c.networkIsHost
    ∧ d.podSpec.initContainers = assembledInitContainers c props (defaultCVMode osd0)
    ∧ d.podSpec.containers
        = [osdDaemonContainer c props (defaultCVMode osd0)]
          ++ (if c.logCollectorEnabled then
                [logCollectorContainer (toString (defaultCVMode osd0).id)]
              else []) := by
  simp only [makeDeployment] at hok
  split at hok
  · exact Except.noConfusion hok
  · split at hok
    · exact Except.noConfusion hok
    · split at hok
      · exact Except.noConfusion hok
      · split at hok
        · exact Except.noConfusion hok
        · cases hok
          exact ⟨rfl, rfl, rfl, rfl, rfl, rfl⟩

/-! ## Bridge-mount uniformity lemmas (shared by the C1 and C8 theorems) -/

/-- Membership in a conditionally-empty list. -/
theorem mem_ite_nil_iff {α : Type} {p : Prop} [Decidable p] {l : List α} {x : α} :
    (x ∈ if p then l else []) ↔ p ∧ x ∈ l := by
  split
  · rename_i hp
    simp [hp]
  · rename_i hp
    simp [hp]

/-- The first volume mount of the `activate` init container is the
`activate-osd` hostpath mount, PVC or not. -/
theorem activate_container_headD (osdID : String) (osd : OSDInfo)
    (props : OsdProperties) (dflt : VolumeMount) :
    ((getActivateOSDInitContainer osdID osd props).2.volumeMounts).headD dflt
      = { name := .fixed activateOSDVolumeName,
          mountPath := activateOSDMountPath ++ osdID } := by
  cases hPVC : props.onPVC <;> simp [getActivateOSDInitContainer, hPVC]


/-- Bridge mounts of the `activate` init container are the primary claim's
`/mnt` bridge. -/
theorem activate_container_bridgeOnly (osdID : String) (osd : OSDInfo)
    (props : OsdProperties) :
    ∀ m ∈ (getActivateOSDInitContainer osdID osd props).2.volumeMounts,
      ∀ k, m.name = VolName.bridge k → m = getPvcOSDBridgeMount props.pvcClaimName := by
  intro m hm k hk
  cases hPVC : props.onPVC
  case false =>
    simp only [getActivateOSDInitContainer, hPVC, Bool.false_eq_true, if_false,
      List.mem_cons, List.not_mem_nil, or_false] at hm
    rcases hm with rfl | rfl | rfl <;> simp [configOverrideMount] at hk
  case true =>
    simp only [getActivateOSDInitContainer, hPVC, if_true, List.mem_append,
      List.mem_cons, List.mem_singleton, List.not_mem_nil, or_false] at hm
    rcases hm with (rfl | rfl | rfl) | rfl
    · simp at hk
    · simp at hk
    · simp [configOverrideMount] at hk
    · rfl

/-- Bridge mounts of the encryption-open container block are all the primary
claim's bridge at the given mount path. -/
theorem encryptionOpen_bridgeOnly (c : ClusterEnv) (props : OsdProperties)
    (mountPath : String) :
    ∀ ct ∈ getPVCEncryptionOpenInitContainerActivate c mountPath props,
      ∀ m ∈ ct.volumeMounts, ∀ k, m.name = VolName.bridge k →
        m = getPvcOSDBridgeMountActivate mountPath props.pvcClaimName := by
  intro ct hct m hm k hk
  rw [getPVCEncryptionOpenInitContainerActivate] at hct
  rcases List.mem_append.1 hct with hct | hct
  · rcases List.mem_append.1 hct with hct | hct
    · rcases List.mem_append.1 hct with hct | hct
      · obtain ⟨-, hct⟩ := mem_ite_nil_iff.1 hct
        rw [List.mem_singleton] at hct
        subst hct
        simp only [generateVaultGetKEK, List.nil_append, List.mem_append,
          List.mem_singleton] at hm
        rcases hm with rfl | rfl <;>
          simp [getEncryptionVolume, vaultVolumeAndMount] at hk
      · rw [List.mem_singleton] at hct
        subst hct
        simp only [generateEncryptionOpenBlockContainer, List.mem_append,
          List.mem_cons, List.mem_singleton, List.not_mem_nil, or_false] at hm
        rcases hm with (rfl | rfl) | rfl
        · rfl
        · simp [getDeviceMapperMount, getDeviceMapperVolume] at hk
        · simp [getEncryptionVolume] at hk
    · obtain ⟨-, hct⟩ := mem_ite_nil_iff.1 hct
      rw [List.mem_singleton] at hct
      subst hct
      simp only [generateEncryptionOpenBlockContainer, List.mem_append,
        List.mem_cons, List.mem_singleton, List.not_mem_nil, or_false] at hm
      rcases hm with (rfl | rfl) | rfl
      · rfl
      · simp [getDeviceMapperMount, getDeviceMapperVolume] at hk
      · simp [getEncryptionVolume] at hk
  · obtain ⟨-, hct⟩ := mem_ite_nil_iff.1 hct
    rw [List.mem_singleton] at hct
    subst hct
    simp only [generateEncryptionOpenBlockContainer, List.mem_append,
      List.mem_cons, List.mem_singleton, List.not_mem_nil, or_false] at hm
    rcases hm with (rfl | rfl) | rfl
    · rfl
    · simp [getDeviceMapperMount, getDeviceMapperVolume] at hk
    · simp [getEncryptionVolume] at hk

/-- Bridge mounts of the encrypted-copy container block are all the primary
claim's bridge at the given mount path. -/
theorem encryptionCopy_bridgeOnly (props : OsdProperties) (mountPath : String) :
    ∀ ct ∈ getPVCEncryptionInitContainerActivate mountPath props,
      ∀ m ∈ ct.volumeMounts, ∀ k, m.name = VolName.bridge k →
        m = getPvcOSDBridgeMountActivate mountPath props.pvcClaimName := by
  intro ct hct m hm k hk
  rw [getPVCEncryptionInitContainerActivate] at hct
  have hcase : ∀ nm pv bn bt,
      ct = generateEncryptionCopyBlockContainer nm pv mountPath props.pvcClaimName bn bt →
      m = getPvcOSDBridgeMountActivate mountPath props.pvcClaimName := by
    intro nm pv bn bt hct2
    subst hct2
    simp only [generateEncryptionCopyBlockContainer, List.mem_cons,
      List.mem_singleton, List.not_mem_nil, or_false] at hm
    rcases hm with rfl | rfl
    · rfl
    · simp [getDeviceMapperMount, getDeviceMapperVolume] at hk
  rcases List.mem_append.1 hct with hct | hct
  · rcases List.mem_append.1 hct with hct | hct
    · rw [List.mem_singleton] at hct
      exact hcase _ _ _ _ hct
    · obtain ⟨-, hct⟩ := mem_ite_nil_iff.1 hct
      rw [List.mem_singleton] at hct
      exact hcase _ _ _ _ hct
  · obtain ⟨-, hct⟩ := mem_ite_nil_iff.1 hct
    rw [List.mem_singleton] at hct
    exact hcase _ _ _ _ hct

/-- Bridge mounts of the raw-on-PVC pipeline block are all the primary
claim's bridge at the OSD data dir. -/
theorem rawModeInitContainers_bridgeOnly (c : ClusterEnv) (props : OsdProperties)
    (osdDataDirPath osdID : String)
    (hpath : osdDataDirPath = activateOSDMountPath ++ osdID) :
    ∀ ct ∈ rawModeInitContainers c props osdDataDirPath osdID,
      ∀ m ∈ ct.volumeMounts, ∀ k, m.name = VolName.bridge k →
        m = getPvcOSDBridgeMountActivate osdDataDirPath props.pvcClaimName := by
  subst hpath
  intro ct hct m hm k hk
  rw [rawModeInitContainers] at hct
  rcases List.mem_append.1 hct with hct | hct
  swap
  · -- [activate, expand]
    simp only [List.mem_cons, List.not_mem_nil, or_false] at hct
    rcases hct with rfl | rfl
    · simp only [getActivatePVCInitContainer, List.mem_singleton] at hm
      subst hm
      rfl
    · simp only [getExpandPVCInitContainer, List.mem_singleton] at hm
      subst hm
      rfl
  rcases List.mem_append.1 hct with hct | hct
  swap
  · -- encrypted block
    obtain ⟨-, hct⟩ := mem_ite_nil_iff.1 hct
    rcases List.mem_append.1 hct with hct | hct
    swap
    · -- [status, expand-encrypted]
      simp only [List.mem_cons, List.not_mem_nil, or_false] at hct
      rcases hct with rfl | rfl
      · simp only [getEncryptedStatusPVCInitContainer, List.mem_singleton] at hm
        subst hm
        rfl
      · simp only [getExpandEncryptedPVCInitContainer, List.mem_cons,
          List.mem_singleton, List.not_mem_nil, or_false] at hm
        rcases hm with rfl | rfl
        · rfl
        · simp [getDeviceMapperVolume] at hk
    rcases List.mem_append.1 hct with hct | hct
    · exact encryptionOpen_bridgeOnly c props _ ct hct m hm k hk
    · exact encryptionCopy_bridgeOnly props _ ct hct m hm k hk
  rcases List.mem_append.1 hct with hct | hct
  swap
  · -- wal copy
    obtain ⟨-, hct⟩ := mem_ite_nil_iff.1 hct
    rw [List.mem_singleton] at hct
    subst hct
    simp only [getPVCWalInitContainerActivate, List.mem_singleton] at hm
    subst hm
    rfl
  rcases List.mem_append.1 hct with hct | hct
  · -- block copy
    rw [List.mem_singleton] at hct
    subst hct
    simp only [getPVCInitContainerActivate, List.mem_singleton] at hm
    subst hm
    rfl
  · -- metadata copy
    obtain ⟨-, hct⟩ := mem_ite_nil_iff.1 hct
    rw [List.mem_singleton] at hct
    subst hct
    simp only [getPVCMetadataInitContainerActivate, List.mem_singleton] at hm
    subst hm
    rfl

/-- Bridge mounts among the daemon's accumulated volume mounts are the
canonical bridge of the topology (given that the opaque controller mounts
carry no bridge name). -/
theorem assembledVolumeMounts_bridgeOnly (c : ClusterEnv) (props : OsdProperties)
    (osd : OSDInfo) (osdID osdDataDirPath : String)
    (hceph : ∀ m ∈ c.cephVolumeMounts, ∀ k, m.name ≠ VolName.bridge k) :
    ∀ m ∈ assembledVolumeMounts c props osd osdID osdDataDirPath, ∀ k,
      m.name = VolName.bridge k →
      m = canonicalBridgeMount props osd osdDataDirPath := by
  intro m hm k hk
  rw [assembledVolumeMounts] at hm
  rcases List.mem_append.1 hm with hm | hm
  swap
  · -- raw bridge
    obtain ⟨hcond, hm⟩ := mem_ite_nil_iff.1 hm
    rw [List.mem_singleton] at hm
    subst hm
    rw [canonicalBridgeMount, if_pos hcond]
  rcases List.mem_append.1 hm with hm | hm
  swap
  · -- lvm bridge
    obtain ⟨hcond, hm⟩ := mem_ite_nil_iff.1 hm
    rw [List.mem_singleton] at hm
    subst hm
    have h2 : osd.cvMode = "lvm" := by
      simp only [Bool.and_eq_true, beq_iff_eq] at hcond
      exact hcond.2
    rw [canonicalBridgeMount, if_neg (by simp [h2])]
  rcases List.mem_append.1 hm with hm | hm
  swap
  · -- activate container's first mount
    obtain ⟨-, hm⟩ := mem_ite_nil_iff.1 hm
    rw [List.mem_singleton] at hm
    rw [activate_container_headD] at hm
    subst hm
    simp at hk
  rcases List.mem_append.1 hm with hm | hm
  swap
  · -- rook binaries
    obtain ⟨-, hm⟩ := mem_ite_nil_iff.1 hm
    rw [List.mem_singleton] at hm
    subst hm
    simp at hk
  rcases List.mem_append.1 hm with hm | hm
  swap
  · -- device mapper
    obtain ⟨-, hm⟩ := mem_ite_nil_iff.1 hm
    rw [List.mem_singleton] at hm
    subst hm
    simp [getDeviceMapperMount, getDeviceMapperVolume] at hk
  rcases List.mem_append.1 hm with hm | hm
  swap
  · -- udev
    rw [List.mem_singleton] at hm
    subst hm
    simp [getUdevVolume] at hk
  rcases List.mem_append.1 hm with hm | hm
  · exact absurd hk (hceph m hm k)
  · -- /dev for non-PVC
    obtain ⟨-, hm⟩ := mem_ite_nil_iff.1 hm
    rw [List.mem_singleton] at hm
    subst hm
    simp at hk

/-- Bridge mounts of every init container of the plan are the canonical
bridge of the topology. -/
theorem assembledInitContainers_bridgeOnly (c : ClusterEnv) (props : OsdProperties)
    (osd : OSDInfo)
    (hceph : ∀ m ∈ c.cephVolumeMounts, ∀ k, m.name ≠ VolName.bridge k)
    (hrook : ∀ m ∈ c.rookVolumeMounts, ∀ k, m.name ≠ VolName.bridge k) :
    ∀ ct ∈ assembledInitContainers c props osd,
      ∀ m ∈ ct.volumeMounts, ∀ k, m.name = VolName.bridge k →
        m = canonicalBridgeMount props osd (activateOSDMountPath ++ toString osd.id) := by
  intro ct hct m hm k hk
  simp only [assembledInitContainers] at hct
  rcases List.mem_append.1 hct with hct | hct
  swap
  · -- ownership normalization
    rw [List.mem_singleton] at hct
    subst hct
    simp only [chownCephDataDirsInitContainer] at hm
    exact assembledVolumeMounts_bridgeOnly c props osd _ _ hceph m hm k hk
  rcases List.mem_append.1 hct with hct | hct
  swap
  · -- activate container
    obtain ⟨hcond, hct⟩ := mem_ite_nil_iff.1 hct
    rw [List.mem_singleton] at hct
    subst hct
    have hm2 := activate_container_bridgeOnly _ osd props m hm k hk
    have hraw : (props.onPVC && osd.cvMode == "raw") = false := by
      simp only [doActivateOSDInitF, Bool.and_eq_true, Bool.not_eq_true'] at hcond
      exact hcond.2
    rw [canonicalBridgeMount, if_neg (by simp [hraw]), hm2]
  rcases List.mem_append.1 hct with hct | hct
  swap
  · -- raw-on-PVC pipeline
    obtain ⟨hcond, hct⟩ := mem_ite_nil_iff.1 hct
    have hm2 := rawModeInitContainers_bridgeOnly c props _ _ rfl ct hct m hm k hk
    rw [canonicalBridgeMount, if_pos hcond, hm2]
  rcases List.mem_append.1 hct with hct | hct
  swap
  · -- lvm device-to-bridge copy
    obtain ⟨hcond, hct⟩ := mem_ite_nil_iff.1 hct
    rw [List.mem_singleton] at hct
    subst hct
    simp only [getPVCInitContainer, List.mem_singleton] at hm
    subst hm
    have h2 : osd.cvMode = "lvm" := by
      simp only [Bool.and_eq_true, beq_iff_eq] at hcond
      exact hcond.2
    rw [canonicalBridgeMount, if_neg (by simp [h2])]
  rcases List.mem_append.1 hct with hct | hct
  · -- config init
    obtain ⟨-, hct⟩ := mem_ite_nil_iff.1 hct
    rw [List.mem_singleton] at hct
    subst hct
    exact absurd hk (hrook m hm k)
  · -- copy binaries
    obtain ⟨-, hct⟩ := mem_ite_nil_iff.1 hct
    rw [List.mem_singleton] at hct
    subst hct
    simp only [getCopyBinariesContainer, List.mem_singleton] at hm
    subst hm
    simp at hk

/-! ## C1 — bridge uniformity of the built plan -/

/-- C1: for every topology, any two bridge mounts of any two pipeline steps of
a successfully built plan that reference the same claim are identical (same
structured volume name, same mount path); moreover every bridge mount of
every step — the metadata-copy and WAL-copy steps included — is named after
the primary block claim, never after a step's own claim.  The opaque
controller-provided mount lists are assumed bridge-free (they are produced
outside the resolver). -/
theorem build_plan_bridge_uniform (c : ClusterEnv) (props : OsdProperties)
    (osd0 : OSDInfo) (d : DeploymentM)
    (hok : makeDeployment c props osd0 = .ok d)
    (hceph : ∀ m ∈ c.cephVolumeMounts, ∀ k, m.name ≠ VolName.bridge k)
    (hrook : ∀ m ∈ c.rookVolumeMounts, ∀ k, m.name ≠ VolName.bridge k) :
    (∀ ct1 ∈ d.podSpec.initContainers, ∀ ct2 ∈ d.podSpec.initContainers,
      ∀ m1 ∈ ct1.volumeMounts, ∀ m2 ∈ ct2.volumeMounts, ∀ k,
        m1.name = VolName.bridge k → m2.name = VolName.bridge k → m1 = m2)
    ∧ (∀ ct ∈ d.podSpec.initContainers, ∀ m ∈ ct.volumeMounts, ∀ k,
        m.name = VolName.bridge k → m.name = VolName.bridge props.pvcClaimName) := by
  obtain ⟨-, -, -, -, hinit, -⟩ := makeDeployment_ok_inv c props osd0 d hok
  rw [hinit]
  have hmain := assembledInitContainers_bridgeOnly c props (defaultCVMode osd0) hceph hrook
  constructor
  · intro ct1 h1 ct2 h2 m1 hm1 m2 hm2 k hk1 hk2
    rw [hmain ct1 h1 m1 hm1 k hk1, hmain ct2 h2 m2 hm2 k hk2]
  · intro ct h m hm k hk
    rw [hmain ct h m hm k hk, canonicalBridgeMount]
    split <;> rfl

/-- Witness for C1 at the concrete encrypted raw-mode topology (opaque mount
lists empty, one opaque pod volume). -/
theorem build_plan_bridge_uniform_witness :
    (∀ ct1 ∈ (makeDeploymentOkOr exClusterEnv exProps exOsd).podSpec.initContainers,
      ∀ ct2 ∈ (makeDeploymentOkOr exClusterEnv exProps exOsd).podSpec.initContainers,
      ∀ m1 ∈ ct1.volumeMounts, ∀ m2 ∈ ct2.volumeMounts, ∀ k,
        m1.name = VolName.bridge k → m2.name = VolName.bridge k → m1 = m2)
    ∧ (∀ ct ∈ (makeDeploymentOkOr exClusterEnv exProps exOsd).podSpec.initContainers,
      ∀ m ∈ ct.volumeMounts, ∀ k,
        m.name = VolName.bridge k →
          m.name = VolName.bridge exProps.pvcClaimName) :=
  build_plan_bridge_uniform exClusterEnv exProps exOsd
    (makeDeploymentOkOr exClusterEnv exProps exOsd) rfl
    (by simp [exClusterEnv]) (by simp [exClusterEnv])

/-! ## C9 — host IPC flag -/

/-- C9: the pod spec produced by `makeDeployment` enables the host IPC
namespace exactly when the encrypted-PVC path (`osdProps.encrypted`) or the
encrypted-local-device path (`osdProps.storeConfig.EncryptedDevice`) is in
use, and leaves it disabled otherwise. -/
theorem host_ipc_iff_encrypted (c : ClusterEnv) (props : OsdProperties)
    (osd0 : OSDInfo) (d : DeploymentM)
    (hok : makeDeployment c props osd0 = .ok d) :
    d.podSpec.hostIPC = (props.storeConfigEncryptedDevice || props.encrypted) :=
  (makeDeployment_ok_inv c props osd0 d hok).2.1

/-- Witness for C9 at the concrete encrypted topology (host IPC on) — and the
flag is indeed `true` there. -/
theorem host_ipc_iff_encrypted_witness :
    (makeDeploymentOkOr exClusterEnv exProps exOsd).podSpec.hostIPC
      = (exProps.storeConfigEncryptedDevice || exProps.encrypted) :=
  host_ipc_iff_encrypted exClusterEnv exProps exOsd
    (makeDeploymentOkOr exClusterEnv exProps exOsd) rfl

/-! ## C8 — end-to-end plan of the encrypted raw topology -/

/-- C8 counterexample: at the topology {PersistentVolume raw, encrypted,
separate metadata claim, Vault KMS with token auth} the built plan does NOT
start with the key-retrieval step: its first two steps are the block and
metadata device-to-bridge copies (`blkdevmapper`, `blkdevmapper-metadata`),
which the claimed ten-step order omits entirely. -/
theorem raw_encrypted_plan_order_refuted :
    planStepNames exClusterEnv exProps exOsd = some exActualStepNames
    ∧ exActualStepNames ≠ exClaimedStepNames := ⟨rfl, by decide⟩

/-- C8 amended: the topology {PersistentVolume raw, encrypted, separate
metadata volume, Vault KMS with token auth, no WAL} yields, in order:
block-bridge-copy, metadata-bridge-copy, key-retrieval, block-open,
metadata-open, encrypted-block-copy, encrypted-metadata-copy,
encrypted-status, encrypted-resize, prime-activation, capacity-expand,
ownership-normalization — followed by the terminal `osd` daemon container —
with every bridge-referencing mount of every step being the single bridge of
the primary claim. -/
theorem raw_encrypted_plan_order (c : ClusterEnv) (props : OsdProperties)
    (osd0 : OSDInfo) (d : DeploymentM)
    (h1 : props.pvcClaimName ≠ "") (h2 : osd0.cvMode = "raw")
    (h3 : props.encrypted = true) (h4 : props.metadataPVCClaimName ≠ "")
    (h5 : props.walPVCClaimName = "") (h6 : c.kmsEnabled = true)
    (h7 : c.kmsProvider = "vault") (h8 : c.kmsTokenAuth = true)
    (h9 : c.logCollectorEnabled = false)
    (hceph : ∀ m ∈ c.cephVolumeMounts, ∀ k, m.name ≠ VolName.bridge k)
    (hrook : ∀ m ∈ c.rookVolumeMounts, ∀ k, m.name ≠ VolName.bridge k)
    (hok : makeDeployment c props osd0 = .ok d) :
    d.podSpec.initContainers.map (·.name) = exActualStepNames
    ∧ d.podSpec.containers.map (·.name) = ["osd"]
    ∧ (∀ ct ∈ d.podSpec.initContainers, ∀ m ∈ ct.volumeMounts, ∀ k,
        m.name = VolName.bridge k →
          m = getPvcOSDBridgeMountActivate (activateOSDMountPath ++ toString osd0.id)
                props.pvcClaimName) := by
  obtain ⟨-, -, -, -, hinit, hcont⟩ := makeDeployment_ok_inv c props osd0 d hok
  have hosd : defaultCVMode osd0 = osd0 := by
    simp [defaultCVMode, h2]
  rw [hosd] at hinit hcont
  have honPVC : props.onPVC = true := by simp [OsdProperties.onPVC, h1]
  have hmd : props.onPVCWithMetadata = true := by
    simp [OsdProperties.onPVCWithMetadata, h4]
  have hwal : props.onPVCWithWal = false := by
    simp [OsdProperties.onPVCWithWal, h5]
  refine ⟨?_, ?_, ?_⟩
  · rw [hinit]
    simp [assembledInitContainers, rawModeInitContainers,
      getPVCEncryptionOpenInitContainerActivate, getPVCEncryptionInitContainerActivate,
      doConfigInitF, doBinaryCopyInitF, doActivateOSDInitF, honPVC, h2, h3, hmd, hwal,
      h4, h5, h6, h7, h8, exActualStepNames, chownCephDataDirsInitContainer,
      getPVCInitContainerActivate, getPVCMetadataInitContainerActivate,
      generateVaultGetKEK, generateEncryptionOpenBlockContainer,
      generateEncryptionCopyBlockContainer, getEncryptedStatusPVCInitContainer,
      getExpandEncryptedPVCInitContainer, getActivatePVCInitContainer,
      getExpandPVCInitContainer]
  · rw [hcont]
    simp [h9, osdDaemonContainer]
  · intro ct hct m hm k hk
    rw [hinit] at hct
    have hmain := assembledInitContainers_bridgeOnly c props osd0 hceph hrook
      ct hct m hm k hk
    rw [hmain, canonicalBridgeMount, if_pos (by simp [honPVC, h2])]

/-- Witness for C8 at the concrete encrypted raw topology. -/
theorem raw_encrypted_plan_order_witness :
    (makeDeploymentOkOr exClusterEnv exProps exOsd).podSpec.initContainers.map (·.name)
        = exActualStepNames
    ∧ (makeDeploymentOkOr exClusterEnv exProps exOsd).podSpec.containers.map (·.name)
        = ["osd"]
    ∧ (∀ ct ∈ (makeDeploymentOkOr exClusterEnv exProps exOsd).podSpec.initContainers,
        ∀ m ∈ ct.volumeMounts, ∀ k,
          m.name = VolName.bridge k →
            m = getPvcOSDBridgeMountActivate
                  (activateOSDMountPath ++ toString exOsd.id) exProps.pvcClaimName) :=
  raw_encrypted_plan_order exClusterEnv exProps exOsd
    (makeDeploymentOkOr exClusterEnv exProps exOsd)
    (by decide) rfl rfl (by decide) rfl rfl rfl rfl rfl
    (by simp [exClusterEnv]) (by simp [exClusterEnv]) rfl
